import Mathlib

/-!
Shallow embedding of the configuration loader (`src/simulated_city/config.py`)
and the MQTT publisher (`src/simulated_city/mqtt.py`) of the simulated-city
repository.

File I/O is elided: `load_config` is modelled as a pure function of
  * the parsed top-level YAML mapping (a `Value.dict`), standing for the
    result of `_load_yaml_dict`, and
  * the process environment (after `load_dotenv`), modelled as a map from
    variable names to optional strings.

Python/YAML scalars are modelled by the inductive `Value`; Python floats are
represented exactly as rationals (the configuration claims only ever compare
and default them, no float arithmetic is performed by the source).
-/

namespace SimCity

/-- A Python value as produced by `yaml.safe_load`: `None`, booleans,
integers, floats (represented exactly as rationals), strings, lists, and
string-keyed mappings (association lists, preserving insertion order the way
Python dicts do). -/
inductive Value where
  | null : Value
  | bool : Bool → Value
  | int : Int → Value
  | float : ℚ → Value
  | str : String → Value
  | list : List Value → Value
  | dict : List (String × Value) → Value

mutual

/-- Decidable equality for `Value` (the nested lists defeat `deriving`). -/
def decEqValue : (a b : Value) → Decidable (a = b)
  | .null, .null => isTrue rfl
  | .bool a, .bool b =>
    if h : a = b then isTrue (by rw [h]) else isFalse (by simp [h])
  | .int a, .int b =>
    if h : a = b then isTrue (by rw [h]) else isFalse (by simp [h])
  | .float a, .float b =>
    if h : a = b then isTrue (by rw [h]) else isFalse (by simp [h])
  | .str a, .str b =>
    if h : a = b then isTrue (by rw [h]) else isFalse (by simp [h])
  | .list a, .list b =>
    match decEqValueList a b with
    | isTrue h => isTrue (by rw [h])
    | isFalse h => isFalse (by simp [h])
  | .dict a, .dict b =>
    match decEqValuePairs a b with
    | isTrue h => isTrue (by rw [h])
    | isFalse h => isFalse (by simp [h])
  | .null, .bool _ | .null, .int _ | .null, .float _ | .null, .str _
  | .null, .list _ | .null, .dict _ => isFalse (by simp)
  | .bool _, .null | .bool _, .int _ | .bool _, .float _ | .bool _, .str _
  | .bool _, .list _ | .bool _, .dict _ => isFalse (by simp)
  | .int _, .null | .int _, .bool _ | .int _, .float _ | .int _, .str _
  | .int _, .list _ | .int _, .dict _ => isFalse (by simp)
  | .float _, .null | .float _, .bool _ | .float _, .int _ | .float _, .str _
  | .float _, .list _ | .float _, .dict _ => isFalse (by simp)
  | .str _, .null | .str _, .bool _ | .str _, .int _ | .str _, .float _
  | .str _, .list _ | .str _, .dict _ => isFalse (by simp)
  | .list _, .null | .list _, .bool _ | .list _, .int _ | .list _, .float _
  | .list _, .str _ | .list _, .dict _ => isFalse (by simp)
  | .dict _, .null | .dict _, .bool _ | .dict _, .int _ | .dict _, .float _
  | .dict _, .str _ | .dict _, .list _ => isFalse (by simp)

/-- Decidable equality for lists of values. -/
def decEqValueList : (a b : List Value) → Decidable (a = b)
  | [], [] => isTrue rfl
  | [], _ :: _ => isFalse (by simp)
  | _ :: _, [] => isFalse (by simp)
  | a :: as, b :: bs =>
    match decEqValue a b, decEqValueList as bs with
    | isTrue h1, isTrue h2 => isTrue (by rw [h1, h2])
    | isFalse h1, _ => isFalse (by simp [h1])
    | _, isFalse h2 => isFalse (by simp [h2])

/-- Decidable equality for string-keyed pairs of values. -/
def decEqValuePairs : (a b : List (String × Value)) → Decidable (a = b)
  | [], [] => isTrue rfl
  | [], _ :: _ => isFalse (by simp)
  | _ :: _, [] => isFalse (by simp)
  | (ka, va) :: as, (kb, vb) :: bs =>
    match decEq ka kb, decEqValue va vb, decEqValuePairs as bs with
    | isTrue h0, isTrue h1, isTrue h2 => isTrue (by rw [h0, h1, h2])
    | isFalse h0, _, _ => isFalse (by simp [h0])
    | _, isFalse h1, _ => isFalse (by simp [h1])
    | _, _, isFalse h2 => isFalse (by simp [h2])

end

instance : DecidableEq Value := decEqValue

/-- Python `v is None` as a boolean (used for the `is not None` tests). -/
def Value.isNull : Value → Bool
  | .null => true
  | _ => false

/-- Python truthiness (`bool(v)` / `if v:`). -/
def pyTruthy : Value → Bool
  | .null => false
  | .bool b => b
  | .int n => n != 0
  | .float q => q != 0
  | .str s => s != ""
  | .list l => !l.isEmpty
  | .dict d => !d.isEmpty

/-- First-occurrence lookup in an association list (Python `d[k]` / `k in d`). -/
def alistLookup {α : Type} (d : List (String × α)) (k : String) : Option α :=
  match d.find? (fun p => p.1 == k) with
  | some p => some p.2
  | none => none

/-- Python `d.get(k)`: `None` both for an absent key and for a key stored
with value `None` (the source code never distinguishes the two). -/
def pyGet (d : List (String × Value)) (k : String) : Value :=
  (alistLookup d k).getD .null

/-- Python `d.get(k, default)`: the default applies only to an absent key;
a key present with value `None` yields `None`. -/
def pyGetD (d : List (String × Value)) (k : String) (dflt : Value) : Value :=
  (alistLookup d k).getD dflt

/-- Python `a or b` on values. -/
def pyOr (a b : Value) : Value :=
  if pyTruthy a then a else b

/-- Python `d.get(k) or dflt`, the pervasive defaulting idiom of the source. -/
def getOrDefault (d : List (String × Value)) (k : String) (dflt : Value) : Value :=
  pyOr (pyGet d k) dflt

/-- Python `d[k] = v`: replaces the value in place if the key is present,
otherwise appends the new binding (dict insertion order). -/
def dictInsert {α : Type} (d : List (String × α)) (k : String) (v : α) :
    List (String × α) :=
  if (alistLookup d k).isSome then
    d.map (fun p => if p.1 == k then (k, v) else p)
  else
    d ++ [(k, v)]

/-- Python `{**common, **selected}`: keys of `common` first (values overridden
by `selected` on conflict), then the keys only in `selected`, in order. -/
def dictMerge (common selected : List (String × Value)) : List (String × Value) :=
  common.map (fun p =>
    match alistLookup selected p.1 with
    | some v => (p.1, v)
    | none => p)
  ++ selected.filter (fun p => (alistLookup common p.1).isNone)

/-- Python `str.strip()` (structural implementation over the character
list, so that proofs can evaluate it). -/
def pyStrip (s : String) : String :=
  String.mk (((s.data.dropWhile Char.isWhitespace).reverse.dropWhile
    Char.isWhitespace).reverse)

/-- Splitting on a single-character separator, Python `str.split(sep)`. -/
def splitOnCharAux (sep : Char) : List Char → List Char → List String
  | [], acc => [String.mk acc.reverse]
  | c :: rest, acc =>
    if c == sep then String.mk acc.reverse :: splitOnCharAux sep rest []
    else splitOnCharAux sep rest (c :: acc)

/-- Python `s.split(sep)` for a one-character separator. -/
def splitOnChar (sep : Char) (s : String) : List String :=
  splitOnCharAux sep s.data []

/-- Python `str.lower()` (ASCII). -/
def strLower (s : String) : String :=
  String.mk (s.data.map Char.toLower)

/-- Does the string start with the given character? -/
def headIs (c : Char) (s : String) : Bool :=
  match s.data with
  | [] => false
  | c0 :: _ => c0 == c

/-- Does the string end with the given character? -/
def lastIs (c : Char) (s : String) : Bool :=
  s.data.getLast? == some c

/-- The string without its first character. -/
def strTail (s : String) : String :=
  String.mk (s.data.drop 1)

/-- The string without its last character. -/
def strDropLast (s : String) : String :=
  String.mk s.data.dropLast

/-- Is the string all decimal digits? -/
def allDigits (s : String) : Bool :=
  s.data.all Char.isDigit

/-- Does the string contain the character? -/
def strContainsChar (s : String) (c : Char) : Bool :=
  s.data.contains c

/-- Digits of a decimal string as a natural number (caller checks digits). -/
def natOfDigits (s : String) : Nat :=
  s.data.foldl (fun acc c => acc * 10 + (c.toNat - 48)) 0

/-- Python `int(s)` on a string: optional surrounding whitespace, optional
sign, decimal digits; anything else raises. -/
def parseIntStr (s : String) : Option Int :=
  let t := pyStrip s
  let core : String × Int :=
    if headIs '-' t then (strTail t, -1)
    else if headIs '+' t then (strTail t, 1)
    else (t, 1)
  if core.1 ≠ "" ∧ allDigits core.1 then
    some (core.2 * (natOfDigits core.1 : Int))
  else
    none

/-- Python `float(s)` on a string (decimal subset: optional sign, digits with
an optional fractional part; the configuration format never uses exponents). -/
def parseFloatStr (s : String) : Option ℚ :=
  let t := pyStrip s
  let core : String × ℚ :=
    if headIs '-' t then (strTail t, -1)
    else if headIs '+' t then (strTail t, 1)
    else (t, 1)
  match splitOnChar '.' core.1 with
  | [a] =>
    if a ≠ "" ∧ allDigits a then some (core.2 * (natOfDigits a : ℚ)) else none
  | [a, b] =>
    if (a ≠ "" ∨ b ≠ "") ∧ allDigits a ∧ allDigits b then
      some (core.2 * ((natOfDigits a : ℚ) + mkRat (natOfDigits b) (10 ^ b.data.length)))
    else none
  | _ => none

/-- Truncation toward zero, Python `int()` applied to a float. -/
def ratTrunc (q : ℚ) : Int :=
  if q < 0 then -((-q).floor) else q.floor

/-- Left-pad a string with zeros to the given length. -/
def padZeros (s : String) (n : Nat) : String :=
  String.mk (List.replicate (n - s.length) '0') ++ s

/-- Python `repr`/`str` of a float, for the exactly-representable decimal
rationals the configuration format produces: integral values print with a
trailing `.0`, other values print their shortest decimal expansion. -/
def floatRepr (q : ℚ) : String :=
  let sign := if q < 0 then "-" else ""
  let a : ℚ := if q < 0 then -q else q
  if a.den = 1 then sign ++ toString a.num ++ ".0"
  else
    match (List.range 30).find? (fun k => (a * ((10 : ℚ) ^ (k + 1))).den = 1) with
    | some k =>
      let m : Nat := (a * ((10 : ℚ) ^ (k + 1))).num.toNat
      sign ++ toString (m / 10 ^ (k + 1)) ++ "." ++
        padZeros (toString (m % 10 ^ (k + 1))) (k + 1)
    | none => sign ++ toString a.num ++ "/" ++ toString a.den

mutual

/-- Python `str(v)`. -/
def pyStr : Value → String
  | .null => "None"
  | .bool true => "True"
  | .bool false => "False"
  | .int n => toString n
  | .float q => floatRepr q
  | .str s => s
  | .list l => "[" ++ String.intercalate ", " (pyReprList l) ++ "]"
  | .dict d => "\x7b" ++ String.intercalate ", " (pyReprPairs d) ++ "\x7d"

/-- Python `repr(v)` (strings are quoted; quote escaping is not modelled). -/
def pyRepr : Value → String
  | .str s => "'" ++ s ++ "'"
  | v => pyStrAux v

/-- `str` on non-string scalars and containers (helper for `pyRepr`). -/
def pyStrAux : Value → String
  | .null => "None"
  | .bool true => "True"
  | .bool false => "False"
  | .int n => toString n
  | .float q => floatRepr q
  | .str s => s
  | .list l => "[" ++ String.intercalate ", " (pyReprList l) ++ "]"
  | .dict d => "\x7b" ++ String.intercalate ", " (pyReprPairs d) ++ "\x7d"

/-- Reprs of the elements of a list. -/
def pyReprList : List Value → List String
  | [] => []
  | v :: t => pyRepr v :: pyReprList t

/-- Reprs of the pairs of a dict. -/
def pyReprPairs : List (String × Value) → List String
  | [] => []
  | (k, v) :: t => ("'" ++ k ++ "': " ++ pyRepr v) :: pyReprPairs t

end

/-- Python `int(v)`: booleans to 0/1, floats truncate toward zero, strings
parse as decimal integers, everything else raises `TypeError`/`ValueError`. -/
def pyInt : Value → Except String Int
  | .null => .error "int() argument cannot be None"
  | .bool b => .ok (if b then 1 else 0)
  | .int n => .ok n
  | .float q => .ok (ratTrunc q)
  | .str s =>
    match parseIntStr s with
    | some n => .ok n
    | none => .error ("invalid literal for int() with base 10: '" ++ s ++ "'")
  | .list _ => .error "int() argument cannot be a list"
  | .dict _ => .error "int() argument cannot be a dict"

/-- Python `float(v)`: booleans to 0/1, ints embed, strings parse as decimal
floats, everything else raises `TypeError`/`ValueError`. -/
def pyFloat : Value → Except String ℚ
  | .null => .error "float() argument cannot be None"
  | .bool b => .ok (if b then 1 else 0)
  | .int n => .ok (n : ℚ)
  | .float q => .ok q
  | .str s =>
    match parseFloatStr s with
    | some q => .ok q
    | none => .error ("could not convert string to float: '" ++ s ++ "'")
  | .list _ => .error "float() argument cannot be a list"
  | .dict _ => .error "float() argument cannot be a dict"

/-- The process environment (`os.getenv`), after `.env` supplementation. -/
def Env : Type := String → Option String

/-- `MqttConfig` dataclass of `config.py` (the spec's BrokerConfig).
`client_id_pre` embeds the source's client-id prefix field. -/
structure MqttConfig where
  host : String
  port : Int
  tls : Bool
  username : Option String
  password : Option String
  client_id_pre : String
  keepalive_s : Int
  base_topic : String
  deriving DecidableEq

/-- `SimulationLocationConfig` dataclass. -/
structure SimulationLocationConfig where
  location_id : String
  lat : ℚ
  lon : ℚ
  deriving DecidableEq

/-- `MovementConfig` dataclass. -/
structure MovementConfig where
  tick_s : ℚ := 1
  total_ticks : Int := 20
  step_distance_m : ℚ := mkRat 6 5
  max_turn_deg : ℚ := 45
  boundary_mode : String := "bounce"
  deriving DecidableEq

/-- `MapConfig` dataclass. -/
structure MapConfig where
  min_x : ℚ := 0
  max_x : ℚ := 100
  min_y : ℚ := 0
  max_y : ℚ := 100
  deriving DecidableEq

/-- A UTC instant: minutes since the civil epoch plus seconds, the normal
form `_parse_utc_datetime` produces via `astimezone(timezone.utc)`. -/
structure UtcDateTime where
  minutes : Int
  seconds : Nat
  deriving DecidableEq

/-- Default person names of `SimulationConfig`. -/
def defaultNames : List String :=
  ["Alex", "Sam", "Jordan", "Taylor", "Casey",
   "Riley", "Morgan", "Avery", "Parker", "Quinn"]

/-- Default person colors of `SimulationConfig`. -/
def defaultColors : List String :=
  ["red", "blue", "green", "orange", "purple",
   "teal", "pink", "brown", "gray", "black"]

/-- `SimulationConfig` dataclass (defaults as in the source). -/
structure SimulationConfig where
  timestep_minutes : Int := 15
  arrival_prob : ℚ := mkRat 1 4
  bag_fill_delta_pct : Int := 2
  status_boundary_pct : Int := 10
  publish_every_deposit : Bool := false
  step_delay_s : ℚ := 0
  start_time : Option UtcDateTime := none
  seed : Option Int := none
  locations : List SimulationLocationConfig := []
  people_count : Int := 5
  movement : MovementConfig := {}
  map : MapConfig := {}
  names : List String := defaultNames
  colors : List String := defaultColors
  deriving DecidableEq

/-- `AppConfig` dataclass: primary broker, all active brokers (insertion
order preserved), optional simulation section. -/
structure AppConfig where
  mqtt : MqttConfig
  mqtt_configs : List (String × MqttConfig)
  simulation : Option SimulationConfig
  deriving DecidableEq

/-- Days from 1970-01-01 of a civil date (proleptic Gregorian). -/
def daysFromCivil (y : Int) (m d : Nat) : Int :=
  let y' : Int := y - (if m ≤ 2 then 1 else 0)
  let era : Int := Int.fdiv y' 400
  let yoe : Int := y' - era * 400
  let mp : Nat := (m + 9) % 12
  let doy : Int := ((153 * mp + 2) / 5 + d - 1 : Nat)
  let doe : Int := yoe * 365 + yoe / 4 - yoe / 100 + doy
  era * 146097 + doe - 719468

/-- A fixed-width decimal field of an ISO string. -/
def isoNat (s : String) (w : Nat) : Option Nat :=
  if s.data.length = w ∧ allDigits s then some (natOfDigits s) else none

/-- Parse `HH:MM` or `HH:MM:SS`. -/
def isoTime (s : String) : Option (Nat × Nat × Nat) :=
  match splitOnChar ':' s with
  | [h, m] => do pure (← isoNat h 2, ← isoNat m 2, 0)
  | [h, m, sec] => do pure (← isoNat h 2, ← isoNat m 2, ← isoNat sec 2)
  | _ => none

/-- Parse `YYYY-MM-DD`. -/
def isoDate (s : String) : Option (Nat × Nat × Nat) :=
  match splitOnChar '-' s with
  | [y, m, d] => do pure (← isoNat y 4, ← isoNat m 2, ← isoNat d 2)
  | _ => none

/-- Parse an ISO-8601 datetime string (`datetime.fromisoformat` subset:
date, optional `T`/space-separated time, optional `±HH:MM` offset), returning
the UTC normal form. -/
def fromIso (s : String) : Option UtcDateTime :=
  let parts :=
    if strContainsChar s 'T' then splitOnChar 'T' s
    else if strContainsChar s ' ' then splitOnChar ' ' s
    else [s]
  match parts with
  | [d] => do
    let (y, m, dd) ← isoDate d
    pure ⟨daysFromCivil y m dd * 1440, 0⟩
  | [d, t] => do
    let (y, m, dd) ← isoDate d
    let (tcore, off) ←
      match splitOnChar '+' t with
      | [tt, o] => do
        let (oh, om, _) ← isoTime o
        pure (tt, (oh * 60 + om : Int))
      | [tt] =>
        match splitOnChar '-' tt with
        | [tt', o] => do
          let (oh, om, _) ← isoTime o
          pure (tt', -(oh * 60 + om : Int))
        | [tt'] => pure (tt', (0 : Int))
        | _ => none
      | _ => none
    let (h, mi, sec) ← isoTime tcore
    pure ⟨daysFromCivil y m dd * 1440 + h * 60 + mi - off, sec⟩
  | _ => none

/-- `_parse_utc_datetime`: strings are stripped, a trailing `Z` becomes
`+00:00`, naive datetimes are assumed UTC, aware ones are converted to UTC.
(YAML timestamp scalars reach the model in their string form, standing in for
the `datetime` branch of the source.) -/
def parse_utc_datetime (v : Value) : Except String UtcDateTime :=
  match v with
  | .str s0 =>
    let s1 := pyStrip s0
    let s := if lastIs 'Z' s1 then strDropLast s1 ++ "+00:00" else s1
    match fromIso s with
    | some dt => .ok dt
    | none => .error ("Invalid isoformat string: '" ++ s ++ "'")
  | _ => .error "simulation.start_time must be an ISO-8601 datetime string"

/-- Code-point comparison of character lists (Python string `<=`). -/
def charListLe : List Char → List Char → Bool
  | [], _ => true
  | _ :: _, [] => false
  | a :: as, b :: bs =>
    if a.toNat < b.toNat then true
    else if b.toNat < a.toNat then false
    else charListLe as bs

/-- Python string comparison `a <= b` (lexicographic by code points). -/
def pyStrLe (a b : String) : Bool :=
  charListLe a.data b.data

/-- Python `sorted` on strings (stable, ascending by code points). -/
def sortStrings (l : List String) : List String :=
  List.insertionSort (fun a b => pyStrLe a b = true) l

instance : IsTotal String (fun a b => pyStrLe a b = true) :=
  ⟨fun a b => by
    unfold pyStrLe
    suffices h : ∀ x y : List Char, charListLe x y = true ∨ charListLe y x = true from
      h a.data b.data
    intro x
    induction x with
    | nil => intro y; left; rfl
    | cons cx xs ih =>
      intro y
      cases y with
      | nil => right; rfl
      | cons cy ys =>
        unfold charListLe
        rcases Nat.lt_trichotomy cx.toNat cy.toNat with h | h | h
        · left; rw [if_pos h]
        · rcases ih ys with h2 | h2
          · left
            rw [if_neg (by omega), if_neg (by omega)]
            exact h2
          · right
            rw [if_neg (by omega), if_neg (by omega)]
            exact h2
        · right; rw [if_pos h]⟩

instance : IsTrans String (fun a b => pyStrLe a b = true) :=
  ⟨fun a b c => by
    unfold pyStrLe
    suffices h : ∀ x y z : List Char, charListLe x y = true → charListLe y z = true →
        charListLe x z = true from h a.data b.data c.data
    intro x
    induction x with
    | nil => intro y z _ _; rfl
    | cons cx xs ih =>
      intro y z h1 h2
      cases y with
      | nil => simp [charListLe] at h1
      | cons cy ys =>
        cases z with
        | nil => simp [charListLe] at h2
        | cons cz zs =>
          unfold charListLe at h1 h2 ⊢
          by_cases hxy : cx.toNat < cy.toNat
          · by_cases hyz : cy.toNat < cz.toNat
            · rw [if_pos (by omega)]
            · rw [if_neg hyz] at h2
              by_cases hzy : cz.toNat < cy.toNat
              · rw [if_pos hzy] at h2
                cases h2
              · rw [if_pos (by omega)]
          · rw [if_neg hxy] at h1
            by_cases hyx : cy.toNat < cx.toNat
            · rw [if_pos hyx] at h1
              cases h1
            · rw [if_neg hyx] at h1
              by_cases hyz : cy.toNat < cz.toNat
              · rw [if_pos (by omega)]
              · rw [if_neg hyz] at h2
                by_cases hzy : cz.toNat < cy.toNat
                · rw [if_pos hzy] at h2
                  cases h2
                · rw [if_neg hzy] at h2
                  rw [if_neg (by omega), if_neg (by omega)]
                  exact ih ys zs h1 h2⟩

/-- The error raised for an active profile name that is not defined under
`mqtt.profiles`: it lists the available profile names, sorted. -/
def unknownProfileMsg (profiles : List (String × Value)) (name : String) : String :=
  "Unknown MQTT profile '" ++ name ++ "'. Available: " ++
    String.intercalate ", " (sortStrings (profiles.map Prod.fst))

/-- `data.get("mqtt") or {}` followed by the mapping check, shared by
`_get_active_profiles` and `_load_mqtt_configs`. -/
def mqttRaw (data : List (String × Value)) : Except String (List (String × Value)) :=
  match pyOr (pyGet data "mqtt") (.dict []) with
  | .dict raw => .ok raw
  | _ => .error "Config key 'mqtt' must be a mapping"

/-- `_get_active_profiles`: env override, `active_profiles` list,
`profile`/`default_profile`, then the literal `local` fallback. -/
def get_active_profiles (env : Env) (data : List (String × Value)) :
    Except String (List String) :=
  match mqttRaw data with
  | .error e => .error e
  | .ok raw =>
    let envProfiles := (env "SIMCITY_MQTT_PROFILES").getD ""
    if envProfiles ≠ "" then
      .ok (((splitOnChar ',' envProfiles).map pyStrip).filter (fun p => p ≠ ""))
    else
      let active := pyGet raw "active_profiles"
      if active.isNull then
        let profile := pyOr (pyGet raw "profile") (pyGet raw "default_profile")
        if profile.isNull then
          .ok ["local"]
        else
          match profile with
          | .list l => .ok ((l.filter pyTruthy).map pyStr)
          | p => .ok [pyStr p]
      else
        match active with
        | .list l => .ok ((l.filter pyTruthy).map pyStr)
        | _ => .error "Config key 'mqtt.active_profiles' must be a list"

/-- The top-level `mqtt` keys that are profile management, not broker
settings (the exclusion set of `_load_mqtt_configs`). -/
def isMgmtKey (k : String) : Bool :=
  k == "profiles" || k == "profile" || k == "active_profiles" ||
    k == "active_profile" || k == "default_profile"

/-- The common (non-profile-management) top-level `mqtt` settings. -/
def commonOf (raw : List (String × Value)) : List (String × Value) :=
  raw.filter (fun p => !isMgmtKey p.1)

/-- The synthesized default broker for the `local` profile when no
`profiles` section exists. -/
def localDefaults : List (String × Value) :=
  [("host", .str "localhost"), ("port", .int 1883), ("tls", .bool false)]

/-- One iteration of the `_load_mqtt_configs` loop body: the selected
profile mapping for one requested name. -/
def resolveProfile (profiles : List (String × Value)) (name : String) :
    Except String (List (String × Value)) :=
  if name = "local" ∧ profiles.isEmpty then
    .ok localDefaults
  else if (alistLookup profiles name).isNone then
    .error (unknownProfileMsg profiles name)
  else
    match pyOr (pyGet profiles name) (.dict []) with
    | .dict sel => .ok sel
    | _ => .error ("Config key 'mqtt.profiles." ++ name ++ "' must be a mapping")

/-- The `_load_mqtt_configs` loop: resolve each requested profile and merge
the common settings under it, accumulating a `result` dict. -/
def goMqtt (profiles common : List (String × Value)) :
    List String → List (String × List (String × Value)) →
    Except String (List (String × List (String × Value)))
  | [], acc => .ok acc
  | name :: rest, acc =>
    match resolveProfile profiles name with
    | .error e => .error e
    | .ok sel => goMqtt profiles common rest (dictInsert acc name (dictMerge common sel))

/-- `_load_mqtt_configs`: profile-name-to-merged-mapping dict for all
requested names. -/
def load_mqtt_configs (data : List (String × Value)) (profileNames : List String) :
    Except String (List (String × List (String × Value))) :=
  match mqttRaw data with
  | .error e => .error e
  | .ok raw =>
    match pyOr (pyGet raw "profiles") (.dict []) with
    | .dict profiles => goMqtt profiles (commonOf raw) profileNames []
    | _ => .error "Config key 'mqtt.profiles' must be a mapping"

/-- `_dict_to_mqtt_config`: coerce a merged mapping to a typed `MqttConfig`,
with truthiness-based defaults and env-indirected credentials. -/
def dict_to_mqtt_config (env : Env) (d : List (String × Value)) :
    Except String MqttConfig :=
  let host := pyStr (getOrDefault d "host" (.str "localhost"))
  match pyInt (getOrDefault d "port" (.int 1883)) with
  | .error e => .error e
  | .ok port =>
    let tls := pyTruthy (pyOr (pyGet d "tls") (.bool false))
    let usernameEnv := pyGet d "username_env"
    let passwordEnv := pyGet d "password_env"
    let username := if pyTruthy usernameEnv then env (pyStr usernameEnv) else none
    let password := if pyTruthy passwordEnv then env (pyStr passwordEnv) else none
    let cidp := pyStr (getOrDefault d "client_id_prefix" (.str "simcity"))
    match pyInt (getOrDefault d "keepalive_s" (.int 60)) with
    | .error e => .error e
    | .ok keepalive =>
      let bt := pyStr (getOrDefault d "base_topic" (.str "simulated-city"))
      .ok ⟨host, port, tls, username, password, cidp, keepalive, bt⟩

/-- Reject non-mapping values (`isinstance(x, dict)` checks). -/
def asDict (v : Value) (msg : String) : Except String (List (String × Value)) :=
  match v with
  | .dict d => .ok d
  | _ => .error msg

/-- `_ensure_positive_float`. -/
def ensure_positive_float (v : Value) (keyName : String) : Except String ℚ :=
  match pyFloat v with
  | .error e => .error e
  | .ok q => if q ≤ 0 then .error (keyName ++ " must be > 0") else .ok q

/-- `_ensure_positive_int`. -/
def ensure_positive_int (v : Value) (keyName : String) : Except String Int :=
  match pyInt v with
  | .error e => .error e
  | .ok n => if n ≤ 0 then .error (keyName ++ " must be > 0") else .ok n

/-- `_ensure_in_range`. -/
def ensure_in_range (q : ℚ) (keyName : String) (minValue maxValue : ℚ) :
    Except String Unit :=
  if q < minValue ∨ q > maxValue then
    .error (keyName ++ " must be between " ++ floatRepr minValue ++ " and " ++
      floatRepr maxValue)
  else .ok ()

/-- `_normalize_bounds`. -/
def normalize_bounds (a b : ℚ) : ℚ × ℚ :=
  if a ≤ b then (a, b) else (b, a)

/-- `_parse_str_list`. -/
def parse_str_list (v : Value) (dflt : List String) (keyName : String) :
    Except String (List String) :=
  if v.isNull then .ok dflt
  else
    match v with
    | .list l =>
      let parsed := (l.map (fun it => pyStrip (pyStr it))).filter (fun s => s ≠ "")
      if parsed.isEmpty then .ok dflt else .ok parsed
    | _ => .error (keyName ++ " must be a list of strings")

/-- The `simulation.locations` loop of `_parse_simulation_config`. -/
def parseLocations : List Value → Except String (List SimulationLocationConfig)
  | [] => .ok []
  | it :: rest =>
    match it with
    | .dict d =>
      let lid := pyStrip (pyStr (pyOr (pyOr (pyGet d "id") (pyGet d "location_id")) (.str "")))
      if lid = "" then .error "Each simulation location must have an 'id'"
      else if (alistLookup d "lat").isNone ∨ (alistLookup d "lon").isNone then
        .error ("Simulation location '" ++ lid ++ "' must define 'lat' and 'lon'")
      else
        match pyFloat (pyGet d "lat") with
        | .error e => .error e
        | .ok lat =>
          match pyFloat (pyGet d "lon") with
          | .error e => .error e
          | .ok lon =>
            match parseLocations rest with
            | .error e => .error e
            | .ok ls => .ok (⟨lid, lat, lon⟩ :: ls)
    | _ => .error "Each item in 'simulation.locations' must be a mapping"

/-- The movement paragraph of `_parse_simulation_config` (tick, ticks, step
distance, turn angle, boundary mode), in source order. -/
def parseMovementConfig (m : List (String × Value)) : Except String MovementConfig := do
  let tick_s ← ensure_positive_float (pyGetD m "tick_s" (.float 1))
    "simulation.movement.tick_s"
  let total_ticks ← ensure_positive_int (pyGetD m "total_ticks" (.int 20))
    "simulation.movement.total_ticks"
  let step_distance_m ← ensure_positive_float
    (pyGetD m "step_distance_m" (pyGetD m "random_walk_step_m" (.float (mkRat 6 5))))
    "simulation.movement.step_distance_m"
  let max_turn_deg ← pyFloat
    (pyGetD m "max_turn_deg" (pyGetD m "random_walk_turn_deg_max" (.float 45)))
  let _ ← ensure_in_range max_turn_deg "simulation.movement.max_turn_deg" 0 180
  let boundary_mode := strLower (pyStrip (pyStr (pyGetD m "boundary_mode" (.str "bounce"))))
  if boundary_mode ≠ "bounce" then
    throw "simulation.movement.boundary_mode must be 'bounce' for MVP"
  else
    pure ⟨tick_s, total_ticks, step_distance_m, max_turn_deg, boundary_mode⟩

/-- The `step_delay_s`/`step_delay_seconds` paragraph of
`_parse_simulation_config`. -/
def parseStepDelay (raw : List (String × Value)) : Except String ℚ :=
  let stepDelayRaw :=
    if (pyGet raw "step_delay_s").isNull then pyGet raw "step_delay_seconds"
    else pyGet raw "step_delay_s"
  if stepDelayRaw.isNull then pure 0 else pyFloat stepDelayRaw

/-- The `start_time` paragraph of `_parse_simulation_config`. -/
def parseStartTime (raw : List (String × Value)) : Except String (Option UtcDateTime) :=
  if (pyGet raw "start_time").isNull then pure none
  else do
    let dt ← parse_utc_datetime (pyGet raw "start_time")
    pure (some dt)

/-- The `seed` paragraph of `_parse_simulation_config`. -/
def parseSeed (raw : List (String × Value)) : Except String (Option Int) :=
  if (pyGet raw "seed").isNull then pure none
  else do
    let n ← pyInt (pyGet raw "seed")
    pure (some n)

/-- Reject non-list values (the `simulation.locations` shape check). -/
def asList (v : Value) (msg : String) : Except String (List Value) :=
  match v with
  | .list l => .ok l
  | _ => .error msg

/-- `_parse_simulation_config`: `None` for a missing section, a parsed
`SimulationConfig` otherwise, coercions and checks in source order. -/
def parse_simulation_config (v : Value) : Except String (Option SimulationConfig) :=
  match v with
  | .null => .ok none
  | .dict raw => do
    let timestep_minutes ← pyInt (getOrDefault raw "timestep_minutes" (.int 15))
    let arrival_prob ← pyFloat (getOrDefault raw "arrival_prob" (.float (mkRat 1 4)))
    let bag_fill_delta_pct ← pyInt (getOrDefault raw "bag_fill_delta_pct" (.int 2))
    let status_boundary_pct ← pyInt (getOrDefault raw "status_boundary_pct" (.int 10))
    let publish_every_deposit := pyTruthy (pyOr (pyGet raw "publish_every_deposit") (.bool false))
    let step_delay_s ← parseStepDelay raw
    let start_time ← parseStartTime raw
    let seed ← parseSeed raw
    let people_count ← ensure_positive_int
      (pyGetD raw "people_count" (pyGetD raw "num_people" (.int 5)))
      "simulation.people_count"
    let movementRaw ← asDict (pyOr (pyGet raw "movement") (.dict []))
      "Config key 'simulation.movement' must be a mapping"
    let movement ← parseMovementConfig movementRaw
    let mapRaw ← asDict (pyOr (pyGet raw "map") (.dict []))
      "Config key 'simulation.map' must be a mapping"
    let min_x ← pyFloat (pyGetD mapRaw "min_x" (.float 0))
    let max_x ← pyFloat (pyGetD mapRaw "max_x" (.float 100))
    let min_y ← pyFloat (pyGetD mapRaw "min_y" (.float 0))
    let max_y ← pyFloat (pyGetD mapRaw "max_y" (.float 100))
    let xb := normalize_bounds min_x max_x
    let yb := normalize_bounds min_y max_y
    let names ← parse_str_list (pyGet raw "names") defaultNames "simulation.names"
    let colors ← parse_str_list (pyGet raw "colors") defaultColors "simulation.colors"
    let locationsRaw ← asList (pyOr (pyGet raw "locations") (.list []))
      "Config key 'simulation.locations' must be a list"
    let locations ← parseLocations locationsRaw
    pure (some
      ⟨timestep_minutes, arrival_prob, bag_fill_delta_pct, status_boundary_pct,
       publish_every_deposit, step_delay_s, start_time, seed, locations,
       people_count, movement, ⟨xb.1, xb.2, yb.1, yb.2⟩, names, colors⟩)
  | _ => .error "Config key 'simulation' must be a mapping"

/-- The `load_config` loop materializing `MqttConfig` objects for all active
profiles: builds the `mqtt_configs` dict and records the first config as the
primary broker. -/
def buildConfigs (env : Env) :
    List (String × List (String × Value)) → List (String × MqttConfig) →
    Option MqttConfig →
    Except String (List (String × MqttConfig) × Option MqttConfig)
  | [], acc, primary => .ok (acc, primary)
  | (name, d) :: rest, acc, primary =>
    match dict_to_mqtt_config env d with
    | .error e => .error e
    | .ok c =>
      buildConfigs env rest (dictInsert acc name c)
        (match primary with
         | some p => some p
         | none => some c)

/-- `load_config` over the parsed YAML mapping and the process environment
(path resolution, YAML reading and `.env` loading are I/O and are elided):
active profiles, per-profile merged mappings, typed broker objects, primary
selection, then the optional simulation section. -/
def load_config (env : Env) (data : List (String × Value)) : Except String AppConfig :=
  match get_active_profiles env data with
  | .error e => .error e
  | .ok activeProfiles =>
    match load_mqtt_configs data activeProfiles with
    | .error e => .error e
    | .ok mqttConfigDicts =>
      match buildConfigs env mqttConfigDicts [] none with
      | .error e => .error e
      | .ok (mqttConfigs, primary) =>
        match primary with
        | none => .error "No active MQTT profiles found in config"
        | some primaryMqtt =>
          match parse_simulation_config (pyGet data "simulation") with
          | .error e => .error e
          | .ok simCfg => .ok ⟨primaryMqtt, mqttConfigs, simCfg⟩

/-- The handle `paho`'s `client.publish` returns; `waited` records whether
`wait_for_publish` was called on it before `publish_json` returned. -/
structure PublishHandle where
  topic : String
  payload : String
  qos : Nat
  retain : Bool
  waited : Bool
  deriving DecidableEq

/-- The transport's `client.publish`: hands the message over and returns a
fresh handle. -/
def clientPublish (topic payload : String) (qos : Nat) (retain : Bool) : PublishHandle :=
  ⟨topic, payload, qos, retain, false⟩

/-- The transport's `result.wait_for_publish()`. -/
def waitForPublish (h : PublishHandle) : PublishHandle :=
  { h with waited := true }

/-- The warning `publish_json` logs when the client is not connected. -/
def notConnectedWarning : String :=
  "MQTT client not connected. Message may not be published."

/-- `MqttPublisher.publish_json`: warn (never raise) when the client is not
connected, hand the payload to the transport regardless, block on
confirmation only for QoS above 0, and return the handle together with the
log lines emitted. -/
def publish_json (connected : Bool) (topic payload : String) (qos : Nat)
    (retain : Bool) : List String × PublishHandle :=
  let warnings := if connected then [] else [notConnectedWarning]
  let result := clientPublish topic payload qos retain
  let result := if qos > 0 then waitForPublish result else result
  (warnings, result)

/-! ### Concrete environments and documents used by witnesses -/

/-- An empty process environment. -/
def envEmpty : Env := fun _ => none

/-- An environment with the profile override set to the empty string. -/
def envBlankCsv : Env :=
  fun k => if k = "SIMCITY_MQTT_PROFILES" then some "" else none

/-- An environment with a comma-separated profile override. -/
def envCsv : Env :=
  fun k => if k = "SIMCITY_MQTT_PROFILES" then some "a, b" else none

/-- A document selecting profiles only through `default_profile`. -/
def docDefaultProfile : List (String × Value) :=
  [("mqtt", .dict [("default_profile", .str "x")])]

/-- A document whose single profile carries an arbitrary port. -/
def docPortProfile (n : Int) : List (String × Value) :=
  [("mqtt", .dict [("profile", .str "p"),
                   ("profiles", .dict [("p", .dict [("port", .int n)])])])]

/-- The broker object the synthesized `local` defaults coerce to. -/
def localCfg : MqttConfig :=
  ⟨"localhost", 1883, false, none, none, "simcity", 60, "simulated-city"⟩

/-- A document whose movement section sets only `tick_s`. -/
def docTick (v : Value) : List (String × Value) :=
  [("simulation", .dict [("movement", .dict [("tick_s", v)])])]

/-- A document whose movement section sets only `boundary_mode`. -/
def docBoundary (v : Value) : List (String × Value) :=
  [("simulation", .dict [("movement", .dict [("boundary_mode", v)])])]

/-- A document with an explicit falsy `seed`. -/
def docSeed0 : List (String × Value) :=
  [("simulation", .dict [("seed", .int 0)])]

/-- A document with two simulation faults: a non-positive `people_count`
(validated first) and a non-positive `tick_s`. -/
def docTwoFaults : List (String × Value) :=
  [("simulation", .dict [("people_count", .int 0),
                         ("movement", .dict [("tick_s", .int (-1))])])]

/-- A document whose first active profile maps to a non-mapping value while
the second active profile is missing from `profiles`. -/
def docBadProfileType : List (String × Value) :=
  [("mqtt", .dict [("active_profiles", .list [.str "a", .str "b"]),
                   ("profiles", .dict [("a", .int 1)])])]

/-- A document exercising the common/profile merge. -/
def docMergeWitness : List (String × Value) :=
  [("mqtt", .dict [("host", .str "h"),
                   ("profiles", .dict [("p", .dict [("port", .int 2000)])]),
                   ("active_profiles", .list [.str "p"])])]

/-- A document whose `simulation` section is not a mapping. -/
def docSimNotMapping : List (String × Value) :=
  [("simulation", .int 5)]

/-- A document selecting a profile name absent from a non-empty `profiles`
section (whose keys are deliberately not in sorted order). -/
def docUnknownProfile : List (String × Value) :=
  [("mqtt", .dict [("profile", .str "z"),
                   ("profiles", .dict [("b", .dict [("host", .str "hb")]),
                                       ("a", .dict [("host", .str "ha")])])])]

/-- Does `pat` occur as a contiguous substring of the character list? -/
def subOccurs (pat : List Char) : List Char → Bool
  | [] => pat.isEmpty
  | c :: rest => pat.isPrefixOf (c :: rest) || subOccurs pat rest

/-- Substring occurrence on strings (for claims about error messages). -/
def strContainsSub (s pat : String) : Bool :=
  subOccurs pat.data s.data

/-! ### Generic lemmas about the embedding -/

/-- Successful monadic bind in `Except` decomposes into successful stages. -/
theorem except_bind_ok {ε α β : Type} {x : Except ε α} {f : α → Except ε β} {b : β} :
    x >>= f = Except.ok b ↔ ∃ a, x = Except.ok a ∧ f a = Except.ok b := by
  cases x <;> simp [Bind.bind, Except.bind]

/-- `pure` in `Except` is `Except.ok`. -/
theorem except_pure_ok {ε α : Type} {a b : α} :
    (pure a : Except ε α) = Except.ok b ↔ a = b := by
  simp [pure, Except.pure]

/-- A boolean-valued `isNull` test is the propositional `= .null`. -/
theorem isNull_iff {v : Value} : v.isNull = true ↔ v = .null := by
  cases v <;> simp [Value.isNull]

/-- `pyOr` keeps a truthy value. -/
theorem pyOr_truthy {a b : Value} (h : pyTruthy a = true) : pyOr a b = a := by
  simp [pyOr, h]

/-- `pyOr` replaces a falsy value. -/
theorem pyOr_falsy {a b : Value} (h : pyTruthy a = false) : pyOr a b = b := by
  simp [pyOr, h]

/-- `alistLookup` on an empty alist. -/
@[simp] theorem alistLookup_nil {α : Type} (k : String) :
    alistLookup ([] : List (String × α)) k = none := rfl

/-- `alistLookup` on a cons cell. -/
theorem alistLookup_cons {α : Type} (p : String × α) (t : List (String × α)) (k : String) :
    alistLookup (p :: t) k = if p.1 == k then some p.2 else alistLookup t k := by
  unfold alistLookup
  cases h : (p.1 == k) <;> simp [List.find?, h]

/-- `alistLookup` distributes over append, first list first. -/
theorem alistLookup_append {α : Type} (d1 d2 : List (String × α)) (k : String) :
    alistLookup (d1 ++ d2) k =
      match alistLookup d1 k with
      | some v => some v
      | none => alistLookup d2 k := by
  induction d1 with
  | nil => simp
  | cons p t ih =>
    simp only [List.cons_append, alistLookup_cons]
    cases h : (p.1 == k) <;> simp [h, ih]

/-- `alistLookup` through a key-preserving value map. -/
theorem alistLookup_mapVal {α β : Type} (c : List (String × α)) (h : String → α → β)
    (k : String) :
    alistLookup (c.map (fun p => (p.1, h p.1 p.2))) k = (alistLookup c k).map (h k) := by
  induction c with
  | nil => simp
  | cons p t ih =>
    simp only [List.map_cons, alistLookup_cons]
    cases hpk : (p.1 == k)
    · simp [hpk, ih]
    · have : p.1 = k := by simpa using hpk
      subst this
      simp [hpk]

/-- `alistLookup` through a key-predicate filter that keeps the key. -/
theorem alistLookup_filterKey {α : Type} (s : List (String × α)) (q : String → Bool)
    (k : String) (hk : q k = true) :
    alistLookup (s.filter (fun p => q p.1)) k = alistLookup s k := by
  induction s with
  | nil => simp
  | cons p t ih =>
    by_cases hpk : p.1 = k
    · subst hpk
      simp [List.filter, hk, alistLookup_cons, ih]
    · have hne : (p.1 == k) = false := by simpa using hpk
      cases hq : q p.1 <;>
        simp [List.filter, hq, alistLookup_cons, hne, ih]

/-- Keys are unchanged by the in-place update map of `dictInsert`. -/
theorem mapUpd_keys {α : Type} (d : List (String × α)) (k : String) (v : α) :
    (d.map (fun p => if p.1 == k then (k, v) else p)).map Prod.fst = d.map Prod.fst := by
  induction d with
  | nil => rfl
  | cons p t ih =>
    simp only [List.map_cons, List.cons.injEq]
    refine ⟨?_, ih⟩
    cases hpk : (p.1 == k)
    · simp [hpk]
    · have : p.1 = k := by simpa using hpk
      simp [hpk, this]

/-- The in-place update map of `dictInsert` hits the present key. -/
theorem alistLookup_mapUpd_self {α : Type} (d : List (String × α)) (k : String) (v : α)
    (h : (alistLookup d k).isSome) :
    alistLookup (d.map (fun p => if p.1 == k then (k, v) else p)) k = some v := by
  induction d with
  | nil => simp at h
  | cons p t ih =>
    rw [alistLookup_cons] at h
    simp only [List.map_cons, alistLookup_cons]
    by_cases hpk : p.1 = k
    · simp [hpk]
    · simp only [show (p.1 == k) = false by simpa using hpk, Bool.false_eq_true,
        if_false] at h
      simpa [hpk] using ih h

/-- The in-place update map of `dictInsert` leaves other keys alone. -/
theorem alistLookup_mapUpd_other {α : Type} (d : List (String × α)) (k k' : String) (v : α)
    (hne : k' ≠ k) :
    alistLookup (d.map (fun p => if p.1 == k then (k, v) else p)) k' = alistLookup d k' := by
  induction d with
  | nil => simp
  | cons p t ih =>
    simp only [List.map_cons, alistLookup_cons]
    by_cases hpk : p.1 = k
    · have h1 : ¬ (k = k') := fun hc => hne hc.symm
      have h2 : ¬ (p.1 = k') := fun hc => hne (hpk ▸ hc).symm
      simpa [hpk, h1, h2] using ih
    · by_cases hq : p.1 = k'
      · simp [hpk, hq, hne]
      · simpa [hpk, hq] using ih

/-- Looking up in `dictInsert` at the inserted key yields the new value. -/
theorem alistLookup_dictInsert_self {α : Type} (d : List (String × α)) (k : String) (v : α) :
    alistLookup (dictInsert d k v) k = some v := by
  unfold dictInsert
  split
  · exact alistLookup_mapUpd_self d k v (by assumption)
  · rename_i h
    have hd : alistLookup d k = none := by
      cases hx : alistLookup d k
      · rfl
      · rw [hx] at h; simp at h
    rw [alistLookup_append, hd]
    simp [alistLookup_cons]

/-- Looking up in `dictInsert` at another key is unchanged. -/
theorem alistLookup_dictInsert_other {α : Type} (d : List (String × α)) (k k' : String)
    (v : α) (hne : k' ≠ k) : alistLookup (dictInsert d k v) k' = alistLookup d k' := by
  unfold dictInsert
  split
  · exact alistLookup_mapUpd_other d k k' v hne
  · rw [alistLookup_append]
    have h1 : ((k : String) == k') = false := by
      simp only [beq_eq_false_iff_ne, ne_eq]
      exact fun hc => hne hc.symm
    cases hx : alistLookup d k' <;> simp [hx, alistLookup_cons, h1]

/-- Keys of `dictInsert`: unchanged when the key is present, appended
otherwise. -/
theorem dictInsert_keys {α : Type} (d : List (String × α)) (k : String) (v : α) :
    (dictInsert d k v).map Prod.fst =
      if (alistLookup d k).isSome then d.map Prod.fst else d.map Prod.fst ++ [k] := by
  unfold dictInsert
  split <;> rename_i h
  · exact mapUpd_keys d k v
  · simp

/-- Lookup in the overridden copy of `common` built by `dictMerge`. -/
theorem alistLookup_mergeMap (common selected : List (String × Value)) (k : String) :
    alistLookup (common.map (fun p =>
        match alistLookup selected p.1 with
        | some v => (p.1, v)
        | none => p)) k =
      (alistLookup common k).map (fun vc =>
        match alistLookup selected k with
        | some v => v
        | none => vc) := by
  induction common with
  | nil => simp
  | cons p t ih =>
    simp only [List.map_cons, alistLookup_cons]
    by_cases hpk : p.1 = k
    · subst hpk
      cases hs : alistLookup selected p.1 <;> simp [hs]
    · cases hs : alistLookup selected p.1 <;> simp [hs, hpk, ih]

/-- The characteristic lookup property of the Python `{**common, **selected}`
merge: a key present in `selected` wins, otherwise `common` answers. -/
theorem alistLookup_dictMerge (common selected : List (String × Value)) (k : String) :
    alistLookup (dictMerge common selected) k =
      match alistLookup selected k with
      | some v => some v
      | none => alistLookup common k := by
  unfold dictMerge
  rw [alistLookup_append, alistLookup_mergeMap]
  cases hc : alistLookup common k with
  | some vc =>
    cases hs : alistLookup selected k <;> simp [hs]
  | none =>
    have hfilter : alistLookup (selected.filter
        (fun p => (alistLookup common p.1).isNone)) k = alistLookup selected k :=
      alistLookup_filterKey selected (fun k0 => (alistLookup common k0).isNone) k
        (by simp [hc])
    cases hs : alistLookup selected k <;> simp [hfilter, hs]

/-! ### C9 -/

/-- C9: `publish_json` against a not-connected client does not raise: it is
total, logs exactly the not-connected warning, and still hands the message to
the transport, returning a handle identical to the connected case (same
topic, payload, QoS, retain flag, and confirmation-wait behavior). -/
theorem c9_publish_not_ready (topic payload : String) (qos : Nat) (retain : Bool) :
    (publish_json false topic payload qos retain).1 = [notConnectedWarning] ∧
    (publish_json false topic payload qos retain).2 =
      (publish_json true topic payload qos retain).2 ∧
    (publish_json false topic payload qos retain).2.topic = topic ∧
    (publish_json false topic payload qos retain).2.payload = payload ∧
    (publish_json false topic payload qos retain).2.qos = qos ∧
    (publish_json false topic payload qos retain).2.retain = retain ∧
    (publish_json false topic payload qos retain).2.waited = decide (qos > 0) := by
  by_cases h : qos > 0 <;>
    simp [publish_json, clientPublish, waitForPublish, h]

/-- C9 witness: a concrete not-ready publish at QoS 1. -/
theorem c9_publish_not_ready_witness :
    (publish_json false "t/status" "x" 1 false).1 = [notConnectedWarning] ∧
    (publish_json false "t/status" "x" 1 false).2 =
      (publish_json true "t/status" "x" 1 false).2 ∧
    (publish_json false "t/status" "x" 1 false).2.topic = "t/status" ∧
    (publish_json false "t/status" "x" 1 false).2.payload = "x" ∧
    (publish_json false "t/status" "x" 1 false).2.qos = 1 ∧
    (publish_json false "t/status" "x" 1 false).2.retain = false ∧
    (publish_json false "t/status" "x" 1 false).2.waited = decide (1 > 0) :=
  c9_publish_not_ready "t/status" "x" 1 false

/-! ### C1 -/

/-- C1 counterexample: with no environment override, no `active_profiles`
and no `profile` key, a document carrying only `default_profile: x` resolves
to the profile set `[x]`, not to the claimed literal fallback `[local]`; the
same happens when the environment override is set (to the empty string), so
neither the claimed fallback order nor the claimed env-var short-circuit
holds as stated. -/
theorem c1_counterexample :
    get_active_profiles envEmpty docDefaultProfile = .ok ["x"] ∧
    (Except.ok ["x"] : Except String (List String)) ≠ .ok ["local"] ∧
    envBlankCsv "SIMCITY_MQTT_PROFILES" = some "" ∧
    get_active_profiles envBlankCsv docDefaultProfile = .ok ["x"] :=
  ⟨rfl, by simp, rfl, rfl⟩

/-- C1 (amended): the active profile set is resolved by consulting exactly
one source, in priority order — (a) the `SIMCITY_MQTT_PROFILES` environment
override, when set to a non-empty string, wins outright and is split on
commas; (b) otherwise an explicit `active_profiles` list is used; (c)
otherwise the `profile` field — falling back to `default_profile` when
`profile` is absent or falsy — is used, accepting a single name or a list;
(d) otherwise the set is exactly `[local]`. -/
theorem c1_profile_priority (env : Env) (data raw : List (String × Value))
    (hraw : mqttRaw data = .ok raw) :
    ((env "SIMCITY_MQTT_PROFILES").getD "" ≠ "" →
      get_active_profiles env data =
        .ok ((((splitOnChar ',' ((env "SIMCITY_MQTT_PROFILES").getD "")).map
          pyStrip).filter (fun p => p ≠ "")))) ∧
    ((env "SIMCITY_MQTT_PROFILES").getD "" = "" →
      ∀ l, pyGet raw "active_profiles" = .list l →
        get_active_profiles env data = .ok ((l.filter pyTruthy).map pyStr)) ∧
    ((env "SIMCITY_MQTT_PROFILES").getD "" = "" →
      pyGet raw "active_profiles" = .null →
      ∀ p, pyOr (pyGet raw "profile") (pyGet raw "default_profile") = p →
        p ≠ .null →
        get_active_profiles env data =
          .ok (match p with
               | .list l => (l.filter pyTruthy).map pyStr
               | _ => [pyStr p])) ∧
    ((env "SIMCITY_MQTT_PROFILES").getD "" = "" →
      pyGet raw "active_profiles" = .null →
      pyOr (pyGet raw "profile") (pyGet raw "default_profile") = .null →
      get_active_profiles env data = .ok ["local"]) := by
  have hblank : ¬ ("" : String) ≠ "" := by simp
  refine ⟨?_, ?_, ?_, ?_⟩
  · intro henv
    simp only [get_active_profiles, hraw, if_pos henv]
  · intro henv l hact
    simp only [get_active_profiles, hraw]
    rw [henv, if_neg hblank, hact]
    simp [Value.isNull]
  · intro henv hact p hp hpn
    have h2 : p.isNull = false := by
      cases p <;> simp_all [Value.isNull]
    simp only [get_active_profiles, hraw]
    rw [henv, if_neg hblank, hact, hp]
    simp only [Value.isNull, if_true]
    rw [if_neg (by simp [h2])]
    cases p <;> simp_all [Value.isNull]
  · intro henv hact hp
    simp only [get_active_profiles, hraw]
    rw [henv, if_neg hblank, hact, hp]
    simp [Value.isNull]

/-- C1 amended-claim witness: the environment override branch at a concrete
environment and the empty document. -/
theorem c1_profile_priority_witness :
    get_active_profiles envCsv [] = .ok ["a", "b"] := by
  have h := (c1_profile_priority envCsv [] [] rfl).1 (by simp [envCsv])
  exact h

/-! ### C6 -/

/-- C6 counterexample: a document whose profile sets `port: 70000` loads
successfully and the resulting broker carries port 70000, which is outside
the claimed 1–65535 range — `load_config` does not enforce the range. -/
theorem c6_counterexample :
    (∃ cfg, load_config envEmpty (docPortProfile 70000) = .ok cfg ∧
      cfg.mqtt.port = 70000) ∧ ¬ ((70000 : Int) ≤ 65535) :=
  ⟨⟨_, rfl, rfl⟩, by decide⟩

/-- C6 (amended): the port of a loaded broker is the integer coercion of the
merged `port` value when that value is truthy (any non-zero integer, in or
out of 1–65535, is carried into the config unchanged), defaulting to 1883
otherwise; no range validation is performed. -/
theorem c6_port_unchecked (n : Int) (h : n ≠ 0) :
    ∃ cfg, load_config envEmpty (docPortProfile n) = .ok cfg ∧ cfg.mqtt.port = n := by
  have hb : pyTruthy (.int n) = true := by simp [pyTruthy, h]
  have h2 : getOrDefault [("port", Value.int n)] "port" (.int 1883) = .int n := by
    simp only [getOrDefault]
    rw [show pyGet [("port", Value.int n)] "port" = .int n from rfl]
    exact pyOr_truthy hb
  have h3 : dict_to_mqtt_config envEmpty [("port", Value.int n)] =
      .ok ⟨"localhost", n, false, none, none, "simcity", 60, "simulated-city"⟩ := by
    unfold dict_to_mqtt_config
    rw [h2]
    rfl
  have h4 : buildConfigs envEmpty [("p", [("port", Value.int n)])] [] none =
      .ok ([("p", ⟨"localhost", n, false, none, none, "simcity", 60, "simulated-city"⟩)],
        some ⟨"localhost", n, false, none, none, "simcity", 60, "simulated-city"⟩) := by
    unfold buildConfigs
    rw [h3]
    rfl
  have h5 : load_config envEmpty (docPortProfile n) =
      .ok ⟨⟨"localhost", n, false, none, none, "simcity", 60, "simulated-city"⟩,
        [("p", ⟨"localhost", n, false, none, none, "simcity", 60, "simulated-city"⟩)],
        none⟩ := by
    have hstep : load_config envEmpty (docPortProfile n) =
        (match buildConfigs envEmpty [("p", [("port", Value.int n)])] [] none with
         | .error e => .error e
         | .ok (mqttConfigs, primary) =>
           match primary with
           | none => .error "No active MQTT profiles found in config"
           | some primaryMqtt =>
             match parse_simulation_config (pyGet (docPortProfile n) "simulation") with
             | .error e => .error e
             | .ok simCfg => .ok ⟨primaryMqtt, mqttConfigs, simCfg⟩) := rfl
    rw [hstep, h4]
    rfl
  exact ⟨_, h5, rfl⟩

/-- C6 amended-claim witness: a concrete out-of-range port flows through. -/
theorem c6_port_unchecked_witness :
    ∃ cfg, load_config envEmpty (docPortProfile 99999) = .ok cfg ∧
      cfg.mqtt.port = 99999 :=
  c6_port_unchecked 99999 (by decide)

/-! ### Helper lemmas for peeling the parser chains -/

/-- `Except.ok` feeds the continuation. -/
@[simp] theorem except_ok_bind {ε α β : Type} (a : α) (f : α → Except ε β) :
    ((Except.ok a : Except ε α) >>= f) = f a := rfl

/-- `Except.error` short-circuits the continuation. -/
@[simp] theorem except_error_bind {ε α β : Type} (e : ε) (f : α → Except ε β) :
    ((Except.error e : Except ε α) >>= f) = .error e := rfl

/-- `asDict` succeeds exactly on mappings. -/
theorem asDict_ok {v : Value} {msg : String} {d : List (String × Value)} :
    asDict v msg = .ok d ↔ v = .dict d := by
  cases v <;> simp [asDict]

/-- `_ensure_positive_float` succeeds exactly on positive coercible values. -/
theorem ensure_positive_float_ok {v : Value} {k : String} {q : ℚ} :
    ensure_positive_float v k = .ok q ↔ pyFloat v = .ok q ∧ 0 < q := by
  unfold ensure_positive_float
  cases hv : pyFloat v with
  | error e => simp
  | ok q0 =>
    dsimp only
    by_cases hq : q0 ≤ 0
    · rw [if_pos hq]
      constructor
      · intro hc
        simp at hc
      · rintro ⟨he, hlt⟩
        injection he with he'
        subst he'
        exact absurd hlt (not_lt.mpr hq)
    · rw [if_neg hq]
      constructor
      · intro hc
        injection hc with hc'
        subst hc'
        exact ⟨rfl, lt_of_not_le hq⟩
      · rintro ⟨he, _⟩
        injection he with he'
        rw [he']

/-- `_ensure_positive_int` succeeds exactly on positive coercible values. -/
theorem ensure_positive_int_ok {v : Value} {k : String} {n : Int} :
    ensure_positive_int v k = .ok n ↔ pyInt v = .ok n ∧ 0 < n := by
  unfold ensure_positive_int
  cases hv : pyInt v with
  | error e => simp
  | ok n0 =>
    dsimp only
    by_cases hn : n0 ≤ 0
    · rw [if_pos hn]
      constructor
      · intro hc
        simp at hc
      · rintro ⟨he, hlt⟩
        injection he with he'
        subst he'
        exact absurd hlt (not_lt.mpr hn)
    · rw [if_neg hn]
      constructor
      · intro hc
        injection hc with hc'
        subst hc'
        exact ⟨rfl, lt_of_not_le hn⟩
      · rintro ⟨he, _⟩
        injection he with he'
        rw [he']

/-- What a successful `_parse_simulation_config` run forces: each scalar
field of the result is the corresponding coercion of its raw value, and the
movement section parsed successfully. -/
theorem parse_sim_fields {raw : List (String × Value)} {o : Option SimulationConfig}
    (h : parse_simulation_config (.dict raw) = .ok o) :
    ∃ cfg, o = some cfg ∧
      pyInt (getOrDefault raw "timestep_minutes" (.int 15)) = .ok cfg.timestep_minutes ∧
      pyFloat (getOrDefault raw "arrival_prob" (.float (mkRat 1 4))) = .ok cfg.arrival_prob ∧
      pyInt (getOrDefault raw "bag_fill_delta_pct" (.int 2)) = .ok cfg.bag_fill_delta_pct ∧
      pyInt (getOrDefault raw "status_boundary_pct" (.int 10)) = .ok cfg.status_boundary_pct ∧
      cfg.publish_every_deposit =
        pyTruthy (pyOr (pyGet raw "publish_every_deposit") (.bool false)) ∧
      parseSeed raw = .ok cfg.seed ∧
      ensure_positive_int (pyGetD raw "people_count" (pyGetD raw "num_people" (.int 5)))
        "simulation.people_count" = .ok cfg.people_count ∧
      ∃ mr, asDict (pyOr (pyGet raw "movement") (.dict []))
          "Config key 'simulation.movement' must be a mapping" = .ok mr ∧
        parseMovementConfig mr = .ok cfg.movement := by
  unfold parse_simulation_config at h
  simp only [except_bind_ok, except_pure_ok] at h
  obtain ⟨t1, h1, t2, h2, t3, h3, t4, h4, t5, h5, t6, h6, t7, h7, t8, h8,
    mr, hmr, mv, hmv, mp, hmp, x1, hx1, x2, hx2, y1, hy1, y2, hy2,
    nm, hnm, cl, hcl, lr, hlr, lc, hlc, hfin⟩ := h
  refine ⟨_, hfin.symm, h1, h2, h3, h4, rfl, h7, h8, mr, hmr, hmv⟩

/-- What a successful `parseMovementConfig` run forces: the tick passed the
positivity check and the normalized boundary mode is exactly `bounce`. -/
theorem movement_fields {m : List (String × Value)} {mv : MovementConfig}
    (h : parseMovementConfig m = .ok mv) :
    ensure_positive_float (pyGetD m "tick_s" (.float 1)) "simulation.movement.tick_s" =
      .ok mv.tick_s ∧
    mv.boundary_mode = "bounce" ∧
    strLower (pyStrip (pyStr (pyGetD m "boundary_mode" (.str "bounce")))) = "bounce" := by
  unfold parseMovementConfig at h
  simp only [except_bind_ok, except_pure_ok] at h
  obtain ⟨tick, htick, total, htotal, step, hstep, turn, hturn, u, hu, h⟩ := h
  by_cases hbm : strLower (pyStrip (pyStr (pyGetD m "boundary_mode" (.str "bounce")))) = "bounce"
  · rw [if_neg (by simp [hbm])] at h
    rw [except_pure_ok] at h
    subst h
    exact ⟨htick, hbm, hbm⟩
  · rw [if_pos hbm] at h
    exact absurd h (by simp [throw, throwThe, MonadExceptOf.throw])

/-- What a successful `_dict_to_mqtt_config` run forces: each field is the
documented coercion of its merged value. -/
theorem dict_to_mqtt_fields {env : Env} {d : List (String × Value)} {c : MqttConfig}
    (h : dict_to_mqtt_config env d = .ok c) :
    c.host = pyStr (getOrDefault d "host" (.str "localhost")) ∧
    pyInt (getOrDefault d "port" (.int 1883)) = .ok c.port ∧
    c.tls = pyTruthy (pyOr (pyGet d "tls") (.bool false)) ∧
    pyInt (getOrDefault d "keepalive_s" (.int 60)) = .ok c.keepalive_s ∧
    c.client_id_pre = pyStr (getOrDefault d "client_id_prefix" (.str "simcity")) ∧
    c.base_topic = pyStr (getOrDefault d "base_topic" (.str "simulated-city")) := by
  unfold dict_to_mqtt_config at h
  cases hp : pyInt (getOrDefault d "port" (.int 1883)) with
  | error e =>
    rw [hp] at h
    simp at h
  | ok port =>
    rw [hp] at h
    cases hk : pyInt (getOrDefault d "keepalive_s" (.int 60)) with
    | error e =>
      rw [hk] at h
      simp at h
    | ok ka =>
      rw [hk] at h
      have hc : (⟨pyStr (getOrDefault d "host" (.str "localhost")), port,
          pyTruthy (pyOr (pyGet d "tls") (.bool false)),
          (if pyTruthy (pyGet d "username_env") then env (pyStr (pyGet d "username_env"))
           else none),
          (if pyTruthy (pyGet d "password_env") then env (pyStr (pyGet d "password_env"))
           else none),
          pyStr (getOrDefault d "client_id_prefix" (.str "simcity")), ka,
          pyStr (getOrDefault d "base_topic" (.str "simulated-city"))⟩ : MqttConfig) = c :=
        Except.ok.inj h
      subst hc
      exact ⟨rfl, rfl, rfl, rfl, rfl, rfl⟩

/-- Successful stages compose to a successful `load_config`. -/
theorem load_config_eq {env : Env} {data : List (String × Value)}
    {names : List String} {ds : List (String × List (String × Value))}
    {cfgs : List (String × MqttConfig)} {pm : MqttConfig}
    {simOpt : Option SimulationConfig}
    (h1 : get_active_profiles env data = .ok names)
    (h2 : load_mqtt_configs data names = .ok ds)
    (h3 : buildConfigs env ds [] none = .ok (cfgs, some pm))
    (h4 : parse_simulation_config (pyGet data "simulation") = .ok simOpt) :
    load_config env data = .ok ⟨pm, cfgs, simOpt⟩ := by
  simp only [load_config, h1, h2, h3, h4]

/-- A failing profile materialization fails `load_config` with the same
error. -/
theorem load_config_eq_error_mqtt {env : Env} {data : List (String × Value)}
    {names : List String} {e : String}
    (h1 : get_active_profiles env data = .ok names)
    (h2 : load_mqtt_configs data names = .error e) :
    load_config env data = .error e := by
  simp only [load_config, h1, h2]

/-- If the simulation section cannot parse, `load_config` fails (whatever
stage fails first, no `AppConfig` is returned). -/
theorem load_config_error_of_sim {env : Env} {data : List (String × Value)}
    (h : ∀ o, parse_simulation_config (pyGet data "simulation") ≠ .ok o) :
    ∃ e, load_config env data = .error e := by
  cases h1 : get_active_profiles env data with
  | error e => exact ⟨e, by simp only [load_config, h1]⟩
  | ok names =>
    cases h2 : load_mqtt_configs data names with
    | error e => exact ⟨e, by simp only [load_config, h1, h2]⟩
    | ok ds =>
      cases h3 : buildConfigs env ds [] none with
      | error e => exact ⟨e, by simp only [load_config, h1, h2, h3]⟩
      | ok pr =>
        obtain ⟨cfgs, primary⟩ := pr
        cases primary with
        | none =>
          exact ⟨"No active MQTT profiles found in config",
            by simp only [load_config, h1, h2, h3]⟩
        | some pm =>
          cases h4 : parse_simulation_config (pyGet data "simulation") with
          | error e => exact ⟨e, by simp only [load_config, h1, h2, h3, h4]⟩
          | ok o => exact absurd h4 (h o)

/-! ### Lemmas about the profile and broker loops -/

/-- Absent keys are exactly the ones `alistLookup` misses. -/
theorem alistLookup_none_iff {α : Type} (d : List (String × α)) (k : String) :
    alistLookup d k = none ↔ k ∉ d.map Prod.fst := by
  induction d with
  | nil => simp
  | cons p t ih =>
    rw [alistLookup_cons]
    by_cases hpk : p.1 = k
    · subst hpk
      simp
    · have hne : (p.1 == k) = false := by simpa using hpk
      simp only [hne, Bool.false_eq_true, if_false, List.map_cons, List.mem_cons, ih]
      constructor
      · rintro hnot (hk | hk)
        · exact hpk hk.symm
        · exact hnot hk
      · intro hnot hk
        exact hnot (Or.inr hk)

/-- `dictInsert` preserves key uniqueness. -/
theorem dictInsert_keys_nodup {α : Type} {d : List (String × α)} {k : String} {v : α}
    (h : (d.map Prod.fst).Nodup) : ((dictInsert d k v).map Prod.fst).Nodup := by
  rw [dictInsert_keys]
  split
  · exact h
  · rename_i hns
    have hk : k ∉ d.map Prod.fst := by
      rw [← alistLookup_none_iff]
      cases hx : alistLookup d k
      · rfl
      · rw [hx] at hns
        simp at hns
    simp [List.nodup_append, h, hk]

/-- The `_load_mqtt_configs` loop only creates keys from the requested
names: other keys keep their accumulator binding. -/
theorem goMqtt_preserve {profiles common : List (String × Value)} :
    ∀ (names : List String) (acc res : List (String × List (String × Value))),
    goMqtt profiles common names acc = .ok res →
    ∀ k, k ∉ names → alistLookup res k = alistLookup acc k := by
  intro names
  induction names with
  | nil =>
    intro acc res h k _
    unfold goMqtt at h
    cases h
    rfl
  | cons n rest ih =>
    intro acc res h k hk
    unfold goMqtt at h
    cases hr : resolveProfile profiles n with
    | error e =>
      rw [hr] at h
      simp at h
    | ok sel =>
      rw [hr] at h
      have hk1 : k ≠ n := fun hc => hk (hc ▸ List.mem_cons_self n rest)
      have hk2 : k ∉ rest := fun hc => hk (List.mem_cons_of_mem n hc)
      rw [ih _ res h k hk2, alistLookup_dictInsert_other _ _ _ _ hk1]

/-- Each requested profile name ends up bound to the merge of the common
settings with its resolved profile mapping. -/
theorem goMqtt_lookup {profiles common : List (String × Value)} :
    ∀ (names : List String) (acc res : List (String × List (String × Value))),
    goMqtt profiles common names acc = .ok res →
    ∀ p ∈ names, ∃ sel, resolveProfile profiles p = .ok sel ∧
      alistLookup res p = some (dictMerge common sel) := by
  intro names
  induction names with
  | nil =>
    intro acc res h p hp
    simp at hp
  | cons n rest ih =>
    intro acc res h p hp
    unfold goMqtt at h
    cases hr : resolveProfile profiles n with
    | error e =>
      rw [hr] at h
      simp at h
    | ok sel =>
      rw [hr] at h
      rcases List.mem_cons.mp hp with rfl | hmem
      · by_cases hin : p ∈ rest
        · exact ih _ res h p hin
        · refine ⟨sel, hr, ?_⟩
          rw [goMqtt_preserve rest _ res h p hin, alistLookup_dictInsert_self]
      · exact ih _ res h p hmem

/-- `goMqtt` produces a dict: its keys are unique. -/
theorem goMqtt_ok_keys {profiles common : List (String × Value)} :
    ∀ (names : List String) (acc res : List (String × List (String × Value))),
    goMqtt profiles common names acc = .ok res →
    (acc.map Prod.fst).Nodup → (res.map Prod.fst).Nodup := by
  intro names
  induction names with
  | nil =>
    intro acc res h hn
    unfold goMqtt at h
    cases h
    exact hn
  | cons n rest ih =>
    intro acc res h hn
    unfold goMqtt at h
    cases hr : resolveProfile profiles n with
    | error e =>
      rw [hr] at h
      simp at h
    | ok sel =>
      rw [hr] at h
      exact ih _ res h (dictInsert_keys_nodup hn)

/-- The mapping `_load_mqtt_configs` returns has unique keys. -/
theorem load_mqtt_keys_nodup {data : List (String × Value)} {names : List String}
    {ds : List (String × List (String × Value))}
    (h : load_mqtt_configs data names = .ok ds) : (ds.map Prod.fst).Nodup := by
  cases h1 : mqttRaw data with
  | error e =>
    simp only [load_mqtt_configs, h1] at h
    simp at h
  | ok raw =>
    simp only [load_mqtt_configs, h1] at h
    cases h2 : pyOr (pyGet raw "profiles") (.dict []) <;> rw [h2] at h <;>
      first
        | (exact goMqtt_ok_keys names [] ds h (by simp))
        | simp at h

/-- The `load_config` broker loop appends one typed config per profile, in
order, and the primary is the first one built. -/
theorem buildConfigs_spec (env : Env) :
    ∀ (ds : List (String × List (String × Value)))
      (acc : List (String × MqttConfig)) (prim : Option MqttConfig)
      (res : List (String × MqttConfig) × Option MqttConfig),
    buildConfigs env ds acc prim = .ok res →
    (ds.map Prod.fst).Nodup →
    (∀ p ∈ ds, p.1 ∉ acc.map Prod.fst) →
    ∃ tail, res.1 = acc ++ tail ∧ tail.map Prod.fst = ds.map Prod.fst ∧
      res.2 = (match prim with
               | some p => some p
               | none => tail.head?.map Prod.snd) := by
  intro ds
  induction ds with
  | nil =>
    intro acc prim res h _ _
    unfold buildConfigs at h
    cases h
    exact ⟨[], by simp, rfl, by cases prim <;> rfl⟩
  | cons nd rest ih =>
    obtain ⟨n, d⟩ := nd
    intro acc prim res h hnodup hdisj
    unfold buildConfigs at h
    cases hc : dict_to_mqtt_config env d with
    | error e =>
      rw [hc] at h
      simp at h
    | ok c =>
      simp only [hc] at h
      have hnacc : n ∉ acc.map Prod.fst := hdisj (n, d) (by simp)
      have hins : dictInsert acc n c = acc ++ [(n, c)] := by
        unfold dictInsert
        rw [(alistLookup_none_iff acc n).mpr hnacc]
        simp
      rw [hins] at h
      have hdisj' : ∀ p ∈ rest, p.1 ∉ (acc ++ [(n, c)]).map Prod.fst := by
        intro p hp
        simp only [List.map_append, List.mem_append, List.map_cons, List.map_nil,
          List.mem_singleton]
        rintro (hin | hin)
        · exact hdisj p (List.mem_cons_of_mem _ hp) hin
        · have : p.1 ∈ rest.map Prod.fst := List.mem_map_of_mem Prod.fst hp
          rw [List.map_cons] at hnodup
          exact (List.nodup_cons.mp hnodup).1 (hin ▸ this)
      obtain ⟨tail, hres1, hkeys, hres2⟩ :=
        ih (acc ++ [(n, c)]) _ res h (by
          rw [List.map_cons] at hnodup
          exact (List.nodup_cons.mp hnodup).2) hdisj'
      refine ⟨(n, c) :: tail, by simpa using hres1, by simp [hkeys], ?_⟩
      rw [hres2]
      cases prim <;> simp

/-- A requested profile name that is neither defined under `profiles` nor
the synthesized `local` default resolves to exactly the unknown-profile
message. -/
theorem resolveProfile_absent {profiles : List (String × Value)} {p : String}
    (habs : alistLookup profiles p = none)
    (hnl : ¬(p = "local" ∧ profiles = [])) :
    resolveProfile profiles p = .error (unknownProfileMsg profiles p) := by
  by_cases h1 : p = "local" ∧ profiles.isEmpty
  · exact absurd ⟨h1.1, by simpa using h1.2⟩ hnl
  · unfold resolveProfile
    rw [if_neg h1, if_pos (by simp [habs])]

/-- A requested profile name that is defined under `profiles` resolves
successfully, provided its value is a mapping whenever it is truthy (a
falsy value is replaced by the empty mapping by `or \x7b\x7d`). -/
theorem resolveProfile_present {profiles : List (String × Value)} {p : String} {v : Value}
    (hv : alistLookup profiles p = some v)
    (hsh : pyTruthy v = true → ∃ dq, v = .dict dq) :
    ∃ sel, resolveProfile profiles p = .ok sel := by
  have hloc : ¬(p = "local" ∧ profiles.isEmpty) := by
    rintro ⟨-, h2⟩
    have hnil : profiles = [] := by simpa using h2
    rw [hnil] at hv
    simp [alistLookup] at hv
  have hpg : pyGet profiles p = v := by simp [pyGet, hv]
  by_cases ht : pyTruthy v = true
  · obtain ⟨dq, hdq⟩ := hsh ht
    refine ⟨dq, ?_⟩
    unfold resolveProfile
    rw [if_neg hloc, if_neg (by simp [hv])]
    have hor : pyOr (pyGet profiles p) (.dict []) = .dict dq := by
      unfold pyOr
      rw [hpg, if_pos ht, hdq]
    simp only [hor]
  · refine ⟨[], ?_⟩
    unfold resolveProfile
    rw [if_neg hloc, if_neg (by simp [hv])]
    have hor : pyOr (pyGet profiles p) (.dict []) = .dict [] := by
      unfold pyOr
      rw [hpg, if_neg ht]
    simp only [hor]

/-- If any requested profile name fails to resolve, the `_load_mqtt_configs`
loop fails with some error (the first one encountered). -/
theorem goMqtt_fails {profiles common : List (String × Value)} :
    ∀ names : List String,
    (∃ p ∈ names, ∃ e, resolveProfile profiles p = .error e) →
    ∀ acc, ∃ e, goMqtt profiles common names acc = .error e := by
  intro names
  induction names with
  | nil =>
    rintro ⟨p, hp, -⟩
    simp at hp
  | cons n rest ih =>
    rintro ⟨p, hp, e, he⟩ acc
    cases hr : resolveProfile profiles n with
    | error e2 =>
      refine ⟨e2, ?_⟩
      unfold goMqtt
      rw [hr]
    | ok sel =>
      have hp' : p ∈ rest := by
        rcases List.mem_cons.mp hp with rfl | hmem
        · rw [hr] at he
          cases he
        · exact hmem
      obtain ⟨e2, hgo⟩ := ih ⟨p, hp', e, he⟩ (dictInsert acc n (dictMerge common sel))
      refine ⟨e2, ?_⟩
      unfold goMqtt
      rw [hr]
      exact hgo

/-- A requested profile `p` that is neither defined nor the synthesized
`local` default makes the `_load_mqtt_configs` loop fail with the
unknown-profile message of the first undefined name (which is `p` itself or
an undefined name before it), provided no name requested before `p` is
bound to a truthy non-mapping value. -/
theorem goMqtt_unknown {profiles common : List (String × Value)} :
    ∀ (before after : List String) (p : String),
    alistLookup profiles p = none →
    ¬(p = "local" ∧ profiles = []) →
    (∀ q ∈ before, ∀ v, alistLookup profiles q = some v → pyTruthy v = true →
      ∃ dq, v = .dict dq) →
    ∃ q ∈ before ++ p :: after, ∀ acc,
      goMqtt profiles common (before ++ p :: after) acc =
        .error (unknownProfileMsg profiles q) := by
  intro before
  induction before with
  | nil =>
    intro after p habs hnl _
    refine ⟨p, by simp, fun acc => ?_⟩
    have hr := resolveProfile_absent habs hnl
    show goMqtt profiles common (p :: after) acc = _
    unfold goMqtt
    rw [hr]
  | cons n rest ih =>
    intro after p habs hnl hclean
    cases hv : alistLookup profiles n with
    | none =>
      by_cases hloc : n = "local" ∧ profiles.isEmpty
      · have hr : resolveProfile profiles n = .ok localDefaults := by
          unfold resolveProfile
          rw [if_pos hloc]
        obtain ⟨q, hq, hgo⟩ := ih after p habs hnl
          (fun q hq => hclean q (List.mem_cons_of_mem _ hq))
        refine ⟨q, List.mem_cons_of_mem _ hq, fun acc => ?_⟩
        show goMqtt profiles common (n :: (rest ++ p :: after)) acc = _
        unfold goMqtt
        rw [hr]
        exact hgo _
      · have hr : resolveProfile profiles n = .error (unknownProfileMsg profiles n) :=
          resolveProfile_absent hv (fun h => hloc ⟨h.1, by simp [h.2]⟩)
        refine ⟨n, List.mem_cons_self n _, fun acc => ?_⟩
        show goMqtt profiles common (n :: (rest ++ p :: after)) acc = _
        unfold goMqtt
        rw [hr]
    | some v =>
      obtain ⟨sel, hr⟩ := resolveProfile_present hv
        (hclean n (List.mem_cons_self n rest) v hv)
      obtain ⟨q, hq, hgo⟩ := ih after p habs hnl
        (fun q hq => hclean q (List.mem_cons_of_mem _ hq))
      refine ⟨q, List.mem_cons_of_mem _ hq, fun acc => ?_⟩
      show goMqtt profiles common (n :: (rest ++ p :: after)) acc = _
      unfold goMqtt
      rw [hr]
      exact hgo _

/-! ### C2 -/

/-- C2: whenever `load_config` succeeds, the profile-name-to-broker mapping
is non-empty and the primary broker (the `mqtt` field) is exactly the first
value inserted into that mapping — the broker of the first active profile in
activation order. -/
theorem c2_primary_is_first (env : Env) (data : List (String × Value)) (cfg : AppConfig)
    (h : load_config env data = .ok cfg) :
    cfg.mqtt_configs ≠ [] ∧
    cfg.mqtt_configs.head?.map Prod.snd = some cfg.mqtt := by
  cases h1 : get_active_profiles env data with
  | error e => simp only [load_config, h1] at h; simp at h
  | ok names =>
    cases h2 : load_mqtt_configs data names with
    | error e => simp only [load_config, h1, h2] at h; simp at h
    | ok ds =>
      cases h3 : buildConfigs env ds [] none with
      | error e => simp only [load_config, h1, h2, h3] at h; simp at h
      | ok pr =>
        obtain ⟨cfgs, primary⟩ := pr
        cases primary with
        | none => simp only [load_config, h1, h2, h3] at h; simp at h
        | some pm =>
          cases h4 : parse_simulation_config (pyGet data "simulation") with
          | error e => simp only [load_config, h1, h2, h3, h4] at h; simp at h
          | ok simOpt =>
            have hcfg : cfg = ⟨pm, cfgs, simOpt⟩ := by
              have := load_config_eq h1 h2 h3 h4
              rw [this] at h
              exact (Except.ok.inj h).symm
            subst hcfg
            show cfgs ≠ [] ∧ cfgs.head?.map Prod.snd = some pm
            obtain ⟨tail, htail, -, hprim⟩ :=
              buildConfigs_spec env ds [] none (cfgs, some pm) h3
                (load_mqtt_keys_nodup h2) (by simp)
            have htail' : cfgs = tail := by simpa using htail
            subst htail'
            have hprim' : some pm = cfgs.head?.map Prod.snd := hprim
            constructor
            · intro hnil
              rw [hnil] at hprim'
              simp at hprim'
            · exact hprim'.symm

/-- C2 witness: the empty document loads with the synthesized `local`
profile as both the single mapping entry and the primary broker. -/
theorem c2_primary_is_first_witness :
    (load_config envEmpty [] = .ok ⟨localCfg, [("local", localCfg)], none⟩) ∧
    ([("local", localCfg)] ≠ ([] : List (String × MqttConfig)) ∧
      ([("local", localCfg)] : List (String × MqttConfig)).head?.map Prod.snd =
        some localCfg) :=
  ⟨rfl, c2_primary_is_first envEmpty [] ⟨localCfg, [("local", localCfg)], none⟩ rfl⟩

/-! ### C3 -/

/-- C3: for every active profile name that is present under the `profiles`
section, the merged mapping `load_config` materializes for it answers every
key lookup with the profile-specific value when the profile mapping contains
the key, and with the top-level common value otherwise, where the common
mapping consists of all top-level `mqtt` keys except the profile-management
keys (`profiles`, `profile`, `active_profiles`, `active_profile`,
`default_profile`). -/
theorem c3_merge_lookup (data raw profiles : List (String × Value))
    (names : List String) (ds : List (String × List (String × Value)))
    (p : String) (vp : Value) (sp : List (String × Value))
    (hraw : mqttRaw data = .ok raw)
    (hps : pyOr (pyGet raw "profiles") (.dict []) = .dict profiles)
    (hload : load_mqtt_configs data names = .ok ds)
    (hp : p ∈ names)
    (hpresent : alistLookup profiles p = some vp)
    (hsel : pyOr (pyGet profiles p) (.dict []) = .dict sp) :
    ∃ merged, alistLookup ds p = some merged ∧
      ∀ k, alistLookup merged k =
        match alistLookup sp k with
        | some v => some v
        | none => alistLookup (commonOf raw) k := by
  simp only [load_mqtt_configs, hraw, hps] at hload
  obtain ⟨sel, hres, hlook⟩ := goMqtt_lookup names [] ds hload p hp
  have hne : profiles ≠ [] := by
    intro hc
    rw [hc] at hpresent
    simp at hpresent
  have hsel' : resolveProfile profiles p = .ok sp := by
    unfold resolveProfile
    rw [if_neg (by
      rintro ⟨-, hemp⟩
      exact hne (by simpa using hemp))]
    rw [if_neg (by simp [hpresent])]
    rw [hsel]
  have hspsel : sel = sp := by
    rw [hsel'] at hres
    exact (Except.ok.inj hres).symm
  subst hspsel
  exact ⟨dictMerge (commonOf raw) sel, hlook,
    fun k => alistLookup_dictMerge (commonOf raw) sel k⟩

/-- C3 witness: a concrete document where the profile overrides `port` and
inherits the common `host`. -/
theorem c3_merge_lookup_witness :
    ∃ merged, alistLookup [("p", [("host", Value.str "h"), ("port", Value.int 2000)])]
        "p" = some merged ∧
      ∀ k, alistLookup merged k =
        match alistLookup [("port", Value.int 2000)] k with
        | some v => some v
        | none =>
          alistLookup (commonOf [("host", .str "h"),
            ("profiles", .dict [("p", .dict [("port", .int 2000)])]),
            ("active_profiles", .list [.str "p"])]) k :=
  c3_merge_lookup docMergeWitness
    [("host", .str "h"), ("profiles", .dict [("p", .dict [("port", .int 2000)])]),
      ("active_profiles", .list [.str "p"])]
    [("p", .dict [("port", .int 2000)])] ["p"]
    [("p", [("host", Value.str "h"), ("port", Value.int 2000)])]
    "p" (.dict [("port", .int 2000)]) [("port", .int 2000)]
    rfl rfl rfl (by simp) rfl rfl

/-! ### C4 -/

/-- C4 counterexample: the active set `[a, b]` contains `b`, which is absent
from `profiles` (and is not the synthesized-local case), yet `load_config`
fails on the earlier profile `a` — bound to a non-mapping — with a message
that does not enumerate the available profile names. -/
theorem c4_counterexample :
    get_active_profiles envEmpty docBadProfileType = .ok ["a", "b"] ∧
    alistLookup [("a", Value.int 1)] "b" = none ∧
    load_config envEmpty docBadProfileType =
      .error "Config key 'mqtt.profiles.a' must be a mapping" ∧
    strContainsSub "Config key 'mqtt.profiles.a' must be a mapping" "Available" = false :=
  ⟨rfl, rfl, rfl, rfl⟩

/-- C4 (amended): if some active profile name `p` is absent from `profiles`
(excluding the synthesized `local` with no profiles at all), `load_config`
fails unconditionally; and — provided no active profile requested before
`p` is bound to a truthy non-mapping value — the error is the
unknown-profile message of the first undefined name, which enumerates
exactly the available profile names in sorted order (the enumerated list is
a sorted permutation of the keys of `profiles`). -/
theorem c4_unknown_profile_error (env : Env) (data raw profiles : List (String × Value))
    (before after : List String) (p : String)
    (hraw : mqttRaw data = .ok raw)
    (hps : pyOr (pyGet raw "profiles") (.dict []) = .dict profiles)
    (hactive : get_active_profiles env data = .ok (before ++ p :: after))
    (habsent : alistLookup profiles p = none)
    (hnotlocal : ¬(p = "local" ∧ profiles = [])) :
    (∃ e, load_config env data = .error e) ∧
    ((∀ q ∈ before, ∀ v, alistLookup profiles q = some v → pyTruthy v = true →
        ∃ dq, v = .dict dq) →
      ∃ q ∈ before ++ p :: after,
        load_config env data = .error (unknownProfileMsg profiles q)) ∧
    (sortStrings (profiles.map Prod.fst)).Pairwise (fun a b => pyStrLe a b = true) ∧
    (sortStrings (profiles.map Prod.fst)).Perm (profiles.map Prod.fst) := by
  have hlmq : ∀ e2, goMqtt profiles (commonOf raw) (before ++ p :: after) [] = .error e2 →
      load_config env data = .error e2 := by
    intro e2 hgo
    refine load_config_eq_error_mqtt hactive ?_
    simp only [load_mqtt_configs, hraw, hps]
    exact hgo
  refine ⟨?_, ?_, List.sorted_insertionSort _ _, List.perm_insertionSort _ _⟩
  · obtain ⟨e, hgo⟩ := goMqtt_fails (before ++ p :: after)
      ⟨p, by simp, unknownProfileMsg profiles p, resolveProfile_absent habsent hnotlocal⟩ []
    exact ⟨e, hlmq e hgo⟩
  · intro hclean
    obtain ⟨q, hq, hgo⟩ := goMqtt_unknown before after p habsent hnotlocal hclean
    exact ⟨q, hq, hlmq _ (hgo [])⟩

/-- C4 amended-claim witness: requesting the unknown profile `z` (with no
profiles requested before it) against profiles inserted in the order `b`,
`a` makes the load fail, with the unknown-profile error enumerating `a, b`
— the available names, sorted. -/
theorem c4_unknown_profile_error_witness :
    ((∃ e, load_config envEmpty docUnknownProfile = .error e) ∧
     (∃ q ∈ (["z"] : List String),
        load_config envEmpty docUnknownProfile =
          .error (unknownProfileMsg
            [("b", .dict [("host", .str "hb")]), ("a", .dict [("host", .str "ha")])] q))) ∧
    unknownProfileMsg
      [("b", .dict [("host", .str "hb")]), ("a", .dict [("host", .str "ha")])] "z" =
      "Unknown MQTT profile 'z'. Available: a, b" := by
  have h := c4_unknown_profile_error envEmpty docUnknownProfile
    [("profile", .str "z"),
     ("profiles", .dict [("b", .dict [("host", .str "hb")]),
                         ("a", .dict [("host", .str "ha")])])]
    [("b", .dict [("host", .str "hb")]), ("a", .dict [("host", .str "ha")])]
    [] [] "z" rfl rfl rfl rfl (by simp)
  exact ⟨⟨h.1, h.2.1 (by simp)⟩, rfl⟩

/-! ### C5 -/

/-- C5 counterexample: a document whose active profile set resolves to
`[local]` and which has no `profiles` section can still fail `load_config`
— here because its `simulation` section is not a mapping — so the claim's
unconditional success does not hold. -/
theorem c5_counterexample :
    get_active_profiles envEmpty docSimNotMapping = .ok ["local"] ∧
    pyTruthy (pyGet ([] : List (String × Value)) "profiles") = false ∧
    load_config envEmpty docSimNotMapping =
      .error "Config key 'simulation' must be a mapping" :=
  ⟨rfl, rfl, rfl⟩

/-- C5 (amended): for every document whose active profile set resolves to
exactly `[local]` and which has no truthy `profiles` section, provided the
`simulation` section (if any) parses and the remaining broker fields coerce,
`load_config` succeeds and the primary broker has host `localhost`, port
1883, and TLS disabled. -/
theorem c5_local_defaults (env : Env) (data raw : List (String × Value))
    (simOpt : Option SimulationConfig) (c : MqttConfig)
    (hraw : mqttRaw data = .ok raw)
    (hactive : get_active_profiles env data = .ok ["local"])
    (hnoprof : pyTruthy (pyGet raw "profiles") = false)
    (hsim : parse_simulation_config (pyGet data "simulation") = .ok simOpt)
    (hbroker : dict_to_mqtt_config env (dictMerge (commonOf raw) localDefaults) = .ok c) :
    load_config env data = .ok ⟨c, [("local", c)], simOpt⟩ ∧
    c.host = "localhost" ∧ c.port = 1883 ∧ c.tls = false := by
  have hps : pyOr (pyGet raw "profiles") (.dict []) = .dict [] := pyOr_falsy hnoprof
  have hlm : load_mqtt_configs data ["local"] =
      .ok [("local", dictMerge (commonOf raw) localDefaults)] := by
    simp only [load_mqtt_configs, hraw, hps]
    rfl
  have hbc : buildConfigs env [("local", dictMerge (commonOf raw) localDefaults)] [] none =
      .ok ([("local", c)], some c) := by
    unfold buildConfigs
    rw [hbroker]
    rfl
  refine ⟨load_config_eq hactive hlm hbc hsim, ?_, ?_, ?_⟩
  · obtain ⟨hhost, -, -, -, -, -⟩ := dict_to_mqtt_fields hbroker
    have hmh : pyGet (dictMerge (commonOf raw) localDefaults) "host" = .str "localhost" := by
      unfold pyGet
      rw [alistLookup_dictMerge]
      rfl
    rw [hhost]
    show pyStr (pyOr (pyGet (dictMerge (commonOf raw) localDefaults) "host")
      (.str "localhost")) = "localhost"
    rw [hmh]
    rfl
  · obtain ⟨-, hport, -, -, -, -⟩ := dict_to_mqtt_fields hbroker
    have hmp : pyGet (dictMerge (commonOf raw) localDefaults) "port" = .int 1883 := by
      unfold pyGet
      rw [alistLookup_dictMerge]
      rfl
    have : getOrDefault (dictMerge (commonOf raw) localDefaults) "port" (.int 1883) =
        .int 1883 := by
      unfold getOrDefault
      rw [hmp]
      rfl
    rw [this] at hport
    exact (Except.ok.inj hport).symm
  · obtain ⟨-, -, htls, -, -, -⟩ := dict_to_mqtt_fields hbroker
    have hmt : pyGet (dictMerge (commonOf raw) localDefaults) "tls" = .bool false := by
      unfold pyGet
      rw [alistLookup_dictMerge]
      rfl
    rw [htls, hmt]
    rfl

/-- C5 amended-claim witness: the empty document loads with the synthesized
local broker. -/
theorem c5_local_defaults_witness :
    (load_config envEmpty [] = .ok ⟨localCfg, [("local", localCfg)], none⟩ ∧
      localCfg.host = "localhost" ∧ localCfg.port = 1883 ∧ localCfg.tls = false) :=
  c5_local_defaults envEmpty [] [] none localCfg rfl rfl rfl rfl rfl

/-! ### C7 -/

/-- C7 counterexample: a document whose `simulation.movement.tick_s` is -1
(≤ 0) but whose `people_count` is also invalid fails with the
`people_count` message, which does not mention `simulation.movement.tick_s`
— the claimed message is not produced for every such document. -/
theorem c7_counterexample :
    pyGetD [("tick_s", Value.int (-1))] "tick_s" (.float 1) = .int (-1) ∧
    pyFloat (.int (-1)) = .ok (-1) ∧ ((-1 : ℚ) ≤ 0) ∧
    load_config envEmpty docTwoFaults = .error "simulation.people_count must be > 0" ∧
    strContainsSub "simulation.people_count must be > 0"
      "simulation.movement.tick_s" = false :=
  ⟨rfl, rfl, by norm_num, rfl, rfl⟩

/-- C7 (amended): a non-positive `simulation.movement.tick_s` always makes
`load_config` fail — no `AppConfig` is ever returned — and when the
movement tick check is the first to fail (here: a document whose simulation
section sets only `movement.tick_s`), the error message is exactly the one
naming `simulation.movement.tick_s`. -/
theorem c7_tick_positive :
    (∀ (env : Env) (data : List (String × Value)) (s m : List (String × Value)) (q : ℚ),
      pyGet data "simulation" = .dict s →
      pyOr (pyGet s "movement") (.dict []) = .dict m →
      pyFloat (pyGetD m "tick_s" (.float 1)) = .ok q →
      q ≤ 0 →
      ∃ e, load_config env data = .error e) ∧
    (∀ (v : Value) (q : ℚ), pyFloat v = .ok q → q ≤ 0 →
      load_config envEmpty (docTick v) =
        .error "simulation.movement.tick_s must be > 0" ∧
      strContainsSub "simulation.movement.tick_s must be > 0"
        "simulation.movement.tick_s" = true) := by
  constructor
  · intro env data s m q hs hm hq hle
    apply load_config_error_of_sim
    intro o ho
    rw [hs] at ho
    obtain ⟨cfg, -, -, -, -, -, -, -, -, mr, hmr, hmv⟩ := parse_sim_fields ho
    rw [hm] at hmr
    have hmr' : mr = m := by
      rw [asDict_ok] at hmr
      exact (Value.dict.inj hmr).symm
    obtain ⟨htick, -, -⟩ := movement_fields hmv
    rw [hmr'] at htick
    obtain ⟨hpf, hpos⟩ := ensure_positive_float_ok.mp htick
    rw [hq] at hpf
    have : q = cfg.movement.tick_s := Except.ok.inj hpf
    exact absurd (this ▸ hpos) (not_lt.mpr hle)
  · intro v q hq hle
    have he : ensure_positive_float v "simulation.movement.tick_s" =
        .error "simulation.movement.tick_s must be > 0" := by
      unfold ensure_positive_float
      rw [hq]
      dsimp only
      rw [if_pos hle]
      rfl
    have hm : parseMovementConfig [("tick_s", v)] =
        .error "simulation.movement.tick_s must be > 0" := by
      change ensure_positive_float (pyGetD [("tick_s", v)] "tick_s" (.float 1))
        "simulation.movement.tick_s" >>= _ = _
      rw [show pyGetD [("tick_s", v)] "tick_s" (.float 1) = v from rfl, he]
      rfl
    have hp : parse_simulation_config (.dict [("movement", .dict [("tick_s", v)])]) =
        .error "simulation.movement.tick_s must be > 0" := by
      change parseMovementConfig [("tick_s", v)] >>= _ = _
      rw [hm]
      rfl
    have hload : load_config envEmpty (docTick v) =
        (match parse_simulation_config (.dict [("movement", .dict [("tick_s", v)])]) with
         | .error e => .error e
         | .ok simCfg => .ok ⟨localCfg, [("local", localCfg)], simCfg⟩) := rfl
    rw [hload, hp]
    exact ⟨rfl, rfl⟩

/-- C7 amended-claim witness: `tick_s: 0` in an otherwise-minimal document
fails with the message naming the dotted key. -/
theorem c7_tick_positive_witness :
    (∃ e, load_config envEmpty (docTick (.int 0)) = .error e) ∧
    (load_config envEmpty (docTick (.int 0)) =
        .error "simulation.movement.tick_s must be > 0" ∧
      strContainsSub "simulation.movement.tick_s must be > 0"
        "simulation.movement.tick_s" = true) :=
  ⟨c7_tick_positive.1 envEmpty (docTick (.int 0))
      [("movement", .dict [("tick_s", .int 0)])] [("tick_s", .int 0)] 0
      rfl rfl rfl (by norm_num),
    c7_tick_positive.2 (.int 0) 0 rfl (by norm_num)⟩

/-! ### C8 -/

/-- C8 counterexample: `boundary_mode: Bounce` - a value other than the
literal `bounce` - does not make `load_config` raise: the value is stripped
and lowercased before the comparison, so the document loads. -/
theorem c8_counterexample :
    ("Bounce" : String) ≠ "bounce" ∧
    (∃ cfg, load_config envEmpty (docBoundary (.str "Bounce")) = .ok cfg) :=
  ⟨by simp, ⟨_, rfl⟩⟩

/-- C8 (amended): construction fails unless the `boundary_mode` value,
coerced to a string, stripped and lowercased, equals `bounce`; when the
normalized value equals `bounce` the check passes (shown on a document whose
movement section sets only `boundary_mode`). -/
theorem c8_boundary_bounce :
    (∀ (env : Env) (data : List (String × Value)) (s m : List (String × Value)),
      pyGet data "simulation" = .dict s →
      pyOr (pyGet s "movement") (.dict []) = .dict m →
      strLower (pyStrip (pyStr (pyGetD m "boundary_mode" (.str "bounce")))) ≠ "bounce" →
      ∃ e, load_config env data = .error e) ∧
    (∀ v : Value, strLower (pyStrip (pyStr v)) = "bounce" →
      ∃ cfg, load_config envEmpty (docBoundary v) = .ok cfg ∧
        cfg.simulation.map (fun s => s.movement.boundary_mode) = some "bounce") := by
  constructor
  · intro env data s m hs hm hbm
    apply load_config_error_of_sim
    intro o ho
    rw [hs] at ho
    obtain ⟨cfg, -, -, -, -, -, -, -, -, mr, hmr, hmv⟩ := parse_sim_fields ho
    rw [hm] at hmr
    have hmr' : mr = m := by
      rw [asDict_ok] at hmr
      exact (Value.dict.inj hmr).symm
    obtain ⟨-, -, hb⟩ := movement_fields hmv
    rw [hmr'] at hb
    exact hbm hb
  · intro v hb
    have hmv : parseMovementConfig [("boundary_mode", v)] =
        .ok ⟨1, 20, mkRat 6 5, 45, strLower (pyStrip (pyStr v))⟩ := by
      change (if strLower (pyStrip (pyStr v)) ≠ "bounce"
          then (throw "simulation.movement.boundary_mode must be 'bounce' for MVP" :
            Except String MovementConfig)
          else pure (⟨1, 20, mkRat 6 5, 45, strLower (pyStrip (pyStr v))⟩ :
            MovementConfig)) = _
      rw [if_neg (by simp [hb])]
      rfl
    have hparse : parse_simulation_config
        (.dict [("movement", .dict [("boundary_mode", v)])]) =
        .ok (some { movement := ⟨1, 20, mkRat 6 5, 45, strLower (pyStrip (pyStr v))⟩ }) := by
      change parseMovementConfig [("boundary_mode", v)] >>= _ = _
      rw [hmv]
      rfl
    have hload : load_config envEmpty (docBoundary v) =
        (match parse_simulation_config
            (.dict [("movement", .dict [("boundary_mode", v)])]) with
         | .error e => .error e
         | .ok simCfg => .ok ⟨localCfg, [("local", localCfg)], simCfg⟩) := rfl
    rw [hload, hparse]
    refine ⟨_, rfl, ?_⟩
    show some (strLower (pyStrip (pyStr v))) = some "bounce"
    rw [hb]

/-- C8 amended-claim witness: both directions at concrete boundary values
(`wrap` fails, a padded upper-case `BOUNCE` passes). -/
theorem c8_boundary_bounce_witness :
    (∃ e, load_config envEmpty (docBoundary (.str "wrap")) = .error e) ∧
    (∃ cfg, load_config envEmpty (docBoundary (.str " BOUNCE ")) = .ok cfg ∧
      cfg.simulation.map (fun s => s.movement.boundary_mode) = some "bounce") :=
  ⟨c8_boundary_bounce.1 envEmpty (docBoundary (.str "wrap"))
      [("movement", .dict [("boundary_mode", .str "wrap")])]
      [("boundary_mode", .str "wrap")] rfl rfl (by decide),
    c8_boundary_bounce.2 (.str " BOUNCE ") rfl⟩

/-! ### C10 -/

/-- C10 counterexample: an explicit falsy `seed: 0` is not replaced by the
documented default (`None`): the loaded simulation carries `seed = 0`, so
the present-but-falsy-means-default behavior does not extend to every
simulation scalar field. -/
theorem c10_counterexample :
    pyTruthy (.int 0) = false ∧
    ({} : SimulationConfig).seed = none ∧
    (∃ cfg sim, load_config envEmpty docSeed0 = .ok cfg ∧
      cfg.simulation = some sim ∧ sim.seed = some 0 ∧ sim.seed ≠ none) :=
  ⟨rfl, rfl, ⟨_, _, rfl, rfl, rfl, by simp⟩⟩

/-- C10 (amended): the present-but-falsy-means-default behavior holds for
the broker fields (`port`, `host`, `keepalive_s`, `client_id_prefix`,
`base_topic`) and for the truthiness-defaulted simulation scalars
(`timestep_minutes`, `arrival_prob`, `bag_fill_delta_pct`,
`status_boundary_pct`); fields parsed by presence or positivity (`seed`,
`step_delay_s`, `people_count`, the movement and map fields) do not share
it. -/
theorem c10_falsy_defaults :
    (∀ (env : Env) (d : List (String × Value)) (c : MqttConfig),
      dict_to_mqtt_config env d = .ok c →
      (∀ v, alistLookup d "port" = some v → pyTruthy v = false → c.port = 1883) ∧
      (∀ v, alistLookup d "host" = some v → pyTruthy v = false → c.host = "localhost") ∧
      (∀ v, alistLookup d "keepalive_s" = some v → pyTruthy v = false →
        c.keepalive_s = 60) ∧
      (∀ v, alistLookup d "client_id_prefix" = some v → pyTruthy v = false →
        c.client_id_pre = "simcity") ∧
      (∀ v, alistLookup d "base_topic" = some v → pyTruthy v = false →
        c.base_topic = "simulated-city")) ∧
    (∀ (raw : List (String × Value)) (cfg : SimulationConfig),
      parse_simulation_config (.dict raw) = .ok (some cfg) →
      (∀ v, alistLookup raw "arrival_prob" = some v → pyTruthy v = false →
        cfg.arrival_prob = mkRat 1 4) ∧
      (∀ v, alistLookup raw "timestep_minutes" = some v → pyTruthy v = false →
        cfg.timestep_minutes = 15) ∧
      (∀ v, alistLookup raw "bag_fill_delta_pct" = some v → pyTruthy v = false →
        cfg.bag_fill_delta_pct = 2) ∧
      (∀ v, alistLookup raw "status_boundary_pct" = some v → pyTruthy v = false →
        cfg.status_boundary_pct = 10)) := by
  have hdef : ∀ (d : List (String × Value)) (key : String) (v dflt : Value),
      alistLookup d key = some v → pyTruthy v = false →
      getOrDefault d key dflt = dflt := by
    intro d key v dflt hv hfal
    unfold getOrDefault pyGet
    rw [hv]
    exact pyOr_falsy hfal
  constructor
  · intro env d c h
    obtain ⟨hhost, hport, -, hka, hcid, hbt⟩ := dict_to_mqtt_fields h
    refine ⟨?_, ?_, ?_, ?_, ?_⟩
    · intro v hv hfal
      rw [hdef d "port" v _ hv hfal] at hport
      exact (Except.ok.inj hport).symm
    · intro v hv hfal
      rw [hhost, hdef d "host" v _ hv hfal]
      rfl
    · intro v hv hfal
      rw [hdef d "keepalive_s" v _ hv hfal] at hka
      exact (Except.ok.inj hka).symm
    · intro v hv hfal
      rw [hcid, hdef d "client_id_prefix" v _ hv hfal]
      rfl
    · intro v hv hfal
      rw [hbt, hdef d "base_topic" v _ hv hfal]
      rfl
  · intro raw cfg h
    obtain ⟨cfg', hcfg', h1, h2, h3, h4, -⟩ := parse_sim_fields h
    have hcc : cfg' = cfg := by
      injection hcfg' with hc
      exact hc.symm
    subst hcc
    refine ⟨?_, ?_, ?_, ?_⟩
    · intro v hv hfal
      rw [hdef raw "arrival_prob" v _ hv hfal] at h2
      exact (Except.ok.inj h2).symm
    · intro v hv hfal
      rw [hdef raw "timestep_minutes" v _ hv hfal] at h1
      exact (Except.ok.inj h1).symm
    · intro v hv hfal
      rw [hdef raw "bag_fill_delta_pct" v _ hv hfal] at h3
      exact (Except.ok.inj h3).symm
    · intro v hv hfal
      rw [hdef raw "status_boundary_pct" v _ hv hfal] at h4
      exact (Except.ok.inj h4).symm

/-- C10 amended-claim witness: concrete falsy broker fields and simulation
scalars take their documented defaults. -/
theorem c10_falsy_defaults_witness :
    (localCfg.port = 1883 ∧ localCfg.host = "localhost" ∧
      localCfg.keepalive_s = 60) ∧
    (({} : SimulationConfig).arrival_prob = mkRat 1 4 ∧
      ({} : SimulationConfig).timestep_minutes = 15) := by
  have h1 := c10_falsy_defaults.1 envEmpty
    [("port", .int 0), ("host", .str ""), ("keepalive_s", .int 0)] localCfg rfl
  have h2 := c10_falsy_defaults.2
    [("arrival_prob", .int 0), ("timestep_minutes", .float 0)] {} rfl
  exact ⟨⟨h1.1 (.int 0) rfl rfl, h1.2.1 (.str "") rfl rfl,
    h1.2.2.1 (.int 0) rfl rfl⟩,
    ⟨h2.1 (.int 0) rfl rfl, h2.2.1 (.float 0) rfl rfl⟩⟩

end SimCity
